import Mathlib

/-!
Verification of the Tiny-ERP → PostgreSQL synchronisation script
(`integracao_tiny_render.py`) against its natural-language specification.

The script is embedded shallowly:

* API responses (decoded JSON, as produced by `response.json()`) are values of
  the inductive type `JVal`; Python truthiness, `dict.get`, `str()` rendering
  and `==` are modelled by `jFalsy`, `getCampo`, `pyRepr`/`jStr` and `JVal.jeq`.
* The PostgreSQL tables are association lists keyed by the provider id; the
  `INSERT ... ON CONFLICT ... DO UPDATE` statements are modelled by
  `upsertTabela`, and the `controle_progresso` table by `Progresso` with
  `lerProgresso`/`salvarProgresso` (mirroring `ler_progresso_db` /
  `salvar_progresso_db`).
* The network is a pure environment `Ambiente` mapping each request the script
  makes to the response it receives; transaction commits that may fail
  (connection loss etc.) are fault oracles in the same environment.  A failed
  transaction is rolled back, i.e. leaves the table state unchanged, which is
  exactly PostgreSQL's semantics for the connection-per-run usage of the
  script.
* Monetary/quantity values that the script converts with `float(...)` are
  modelled as exact rationals (`Rat`); the inputs exercised here are decimal
  strings and integers, on which Python float arithmetic is exact.
* Python `time.sleep`, logging, and `datetime.now()` are irrelevant to the
  claims; "now" is passed in as the string parameter `agora`.

Divergences that cannot affect any claim are noted at the definition they
concern (e.g. responses whose top level is not a JSON object make the Python
code raise a `TypeError` that is caught by the enclosing `except`, producing
the same failure result that the model produces directly).
-/

/-! ### Characters, digits and number rendering -/

/-- The single-quote character, written via its code point. -/
def aspaSimples : Char := Char.ofNat 39

/-- The double-quote character. -/
def aspaDupla : Char := Char.ofNat 34

/-- Accumulator for `strToNat`. -/
def strToNatAux : List Char → Nat → Nat
  | [], acc => acc
  | c :: cs, acc => strToNatAux cs (acc * 10 + (c.toNat - 48))

/-- Python `int(s)` on a digit string. -/
def strToNat (s : String) : Nat := strToNatAux s.data 0

/-- Python `s.isdigit()` (for the ASCII digit strings the script sees):
nonempty and all characters are digits. -/
def ehDigitos (s : String) : Bool := !s.data.isEmpty && s.data.all Char.isDigit

/-- Fuel-based decimal rendering of a natural number (fuel `n+1` always
suffices). -/
def natParaStrAux : Nat → Nat → List Char → List Char
  | 0, _, acc => acc
  | fuel+1, n, acc =>
    if n < 10 then Char.ofNat (48 + n) :: acc
    else natParaStrAux fuel (n / 10) (Char.ofNat (48 + n % 10) :: acc)

/-- Python `str(n)` for a natural number. -/
def natParaStr (n : Nat) : String := String.mk (natParaStrAux (n+1) n [])

/-- Python `str(i)` for an integer. -/
def intParaStr (i : Int) : String :=
  if i < 0 then "-" ++ natParaStr i.natAbs else natParaStr i.natAbs

/-! ### Decoded JSON values (Python objects) -/

/-- A decoded JSON value, as manipulated by the script after
`response.json()`: `None`, numbers, strings, lists and dicts.  JSON booleans
do not occur in the Tiny v2 payloads the script inspects and are omitted;
JSON numbers occurring in the payloads are integers (monetary values are
transported as decimal strings), so `num` carries an `Int`. -/
inductive JVal where
  | nul
  | num (n : Int)
  | str (s : String)
  | lst (xs : List JVal)
  | dict (campos : List (String × JVal))
deriving Repr

mutual
/-- Python `==` on decoded JSON values (structural equality; values of
different shapes compare unequal, as in Python for the shapes involved). -/
def JVal.jeq : JVal → JVal → Bool
  | .nul, .nul => true
  | .num a, .num b => a = b
  | .str a, .str b => a = b
  | .lst xs, .lst ys => JVal.jeqLista xs ys
  | .dict xs, .dict ys => JVal.jeqObjeto xs ys
  | _, _ => false
/-- Equality `JVal.jeq` on lists. -/
def JVal.jeqLista : List JVal → List JVal → Bool
  | [], [] => true
  | a :: as, b :: bs => a.jeq b && JVal.jeqLista as bs
  | _, _ => false
/-- Equality `JVal.jeq` on dict entry lists. -/
def JVal.jeqObjeto : List (String × JVal) → List (String × JVal) → Bool
  | [], [] => true
  | (k, a) :: as, (l, b) :: bs => k = l && a.jeq b && JVal.jeqObjeto as bs
  | _, _ => false
end

/-- Lookup of a key in a dict's entry list (Python dicts have unique keys, so
taking the first occurrence is faithful). -/
def procurarAssoc : List (String × JVal) → String → Option JVal
  | [], _ => none
  | (k, v) :: resto, chave => if k = chave then some v else procurarAssoc resto chave

/-- Python `resposta[chave]` / `chave in resposta` on a dict, `none` when the
value is not a dict.  (When the script applies these to a non-dict response it
raises a `TypeError` caught by the enclosing `except`, whose handler returns
the same failure value that the callers of this function produce on `none`.) -/
def getCampo? (v : JVal) (chave : String) : Option JVal :=
  match v with
  | .dict campos => procurarAssoc campos chave
  | _ => none

/-- Python `v.get(chave, padrao)`. -/
def getCampo (v : JVal) (chave : String) (padrao : JVal) : JVal :=
  (getCampo? v chave).getD padrao

/-- Python truthiness of a decoded JSON value. -/
def jFalsy : JVal → Bool
  | .nul => true
  | .num n => n = 0
  | .str s => s = ""
  | .lst xs => xs.isEmpty
  | .dict campos => campos.isEmpty

/-- Python iteration over a value (`for x in v`): lists yield their elements,
strings their characters, dicts their keys; iterating a number or `None`
raises `TypeError` (`none` here), which the script's `except` handlers turn
into the run-level failure the callers produce on `none`. -/
def iteravel : JVal → Option (List JVal)
  | .lst xs => some xs
  | .str s => some (s.data.map (fun c => JVal.str (String.mk [c])))
  | .dict campos => some (campos.map (fun p => JVal.str p.1))
  | _ => none

/-- Is the value a dict (`isinstance(v, dict)`)? -/
def ehDict : JVal → Bool
  | .dict _ => true
  | _ => false

mutual
/-- Python `repr`/`str` of a decoded JSON value (`str(resposta)` as used by
the error-code regex).  String escaping inside quotes is not reproduced; the
payload fields the extractor scans contain no quotes. -/
def pyRepr : JVal → String
  | .nul => "None"
  | .num n => intParaStr n
  | .str s => String.mk [aspaSimples] ++ s ++ String.mk [aspaSimples]
  | .lst xs => "[" ++ pyReprLista xs ++ "]"
  | .dict campos => "\x7b" ++ pyReprObjeto campos ++ "\x7d"
/-- Comma-separated rendering of list elements. -/
def pyReprLista : List JVal → String
  | [] => ""
  | [x] => pyRepr x
  | x :: xs => pyRepr x ++ ", " ++ pyReprLista xs
/-- Comma-separated rendering of dict entries. -/
def pyReprObjeto : List (String × JVal) → String
  | [] => ""
  | [(k, v)] => String.mk [aspaSimples] ++ k ++ String.mk [aspaSimples] ++ ": " ++ pyRepr v
  | (k, v) :: resto =>
      String.mk [aspaSimples] ++ k ++ String.mk [aspaSimples] ++ ": " ++ pyRepr v
        ++ ", " ++ pyReprObjeto resto
end

/-- Python `str(v)` as used in f-strings: a string renders without quotes,
anything else as its `repr`. -/
def jStr : JVal → String
  | .str s => s
  | v => pyRepr v

/-! ### `extrair_codigo_erro_api` (lines 609-636) and its regex fallback

The fallback is `re.search(r"(?:Codigo:\s*|codigo_erro['\"]?:\s*['\"]?)(\d+)",
str(resposta), re.IGNORECASE)`: at each position, try the first alternative
then the second; both end in a maximal nonempty digit run.  The scanner below
implements exactly that search. -/

/-- Case-insensitive literal match (pattern given in lower case); returns the
rest of the input on success. -/
def casaLiteralCI : List Char → List Char → Option (List Char)
  | [], resto => some resto
  | l :: ls, c :: cs => if c.toLower = l then casaLiteralCI ls cs else none
  | _ :: _, [] => none

/-- Regex `\s*`: skip whitespace. -/
def saltaEspacos (cs : List Char) : List Char :=
  cs.dropWhile (fun c => c = ' ' || c = '\t' || c = '\n' || c = '\r')

/-- Regex `['\"]?`: skip one optional quote. -/
def pulaAspa : List Char → List Char
  | [] => []
  | c :: resto => if c = aspaSimples || c = aspaDupla then resto else c :: resto

/-- Regex `(\d+)`: a maximal nonempty digit run, as a number. -/
def pegaDigitos (cs : List Char) : Option Nat :=
  let ds := cs.takeWhile Char.isDigit
  if ds.isEmpty then none else some (strToNatAux ds 0)

/-- First regex alternative: `Codigo:\s*(\d+)`. -/
def alternativaCodigo (cs : List Char) : Option Nat :=
  match casaLiteralCI "codigo:".data cs with
  | some resto => pegaDigitos (saltaEspacos resto)
  | none => none

/-- Second regex alternative: `codigo_erro['\"]?:\s*['\"]?(\d+)`. -/
def alternativaCodigoErro (cs : List Char) : Option Nat :=
  match casaLiteralCI "codigo_erro".data cs with
  | some resto =>
    match pulaAspa resto with
    | ':' :: resto2 => pegaDigitos (pulaAspa (saltaEspacos resto2))
    | _ => none
  | none => none

/-- Leftmost match of the alternation over the rendered response. -/
def buscaCodigoRegexAux : List Char → Option Nat
  | [] => none
  | c :: resto =>
    match alternativaCodigo (c :: resto) with
    | some n => some n
    | none =>
      match alternativaCodigoErro (c :: resto) with
      | some n => some n
      | none => buscaCodigoRegexAux resto

/-- The regex fallback of `extrair_codigo_erro_api`. -/
def buscaCodigoRegex (s : String) : Option Nat := buscaCodigoRegexAux s.data

/-- Result of `extrair_codigo_erro_api`: an integer code, or some other
(non-`None`) Python value kept as-is.  A digit string and the integer it
denotes are indistinguishable by every use of the result (membership tests in
`[22, 23]` / `[14, 34]`), so both are normalised to `numero`. -/
inductive CodigoErroApi where
  | numero (n : Int)
  | outro (v : JVal)
deriving Repr

/-- The structured branch of `extrair_codigo_erro_api`: take
`resposta['retorno']['codigo_erro']` when present, converting a digit string
to an integer; a `None` value (or no such field) leaves `codigo_erro = None`
so the regex fallback runs. -/
def codigoEstruturado (resposta : JVal) : Option CodigoErroApi :=
  match getCampo? resposta "retorno" with
  | some (.dict rs) =>
    match procurarAssoc rs "codigo_erro" with
    | some (.str s) =>
        if ehDigitos s then some (.numero (strToNat s : Nat)) else some (.outro (.str s))
    | some (.num n) => some (.numero n)
    | some .nul => none
    | some v => some (.outro v)
    | none => none
  | _ => none

/-- Model of `extrair_codigo_erro_api(resposta)` (lines 609-636). -/
def extrairCodigoErroApi (resposta : JVal) : Option CodigoErroApi :=
  match codigoEstruturado resposta with
  | some c => some c
  | none => (buscaCodigoRegex (pyRepr resposta)).map (fun n => CodigoErroApi.numero n)

/-- Python `codigo_erro in ns` on the extractor's result. -/
def codigoEm (c : Option CodigoErroApi) (ns : List Int) : Bool :=
  match c with
  | some (.numero n) => ns.contains n
  | _ => false

/-- Model of `verificar_fim_paginacao(resposta)` (lines 638-647): end of pagination iff
the extracted error code is 22 or 23. -/
def verificarFimPaginacao (resposta : JVal) : Bool :=
  codigoEm (extrairCodigoErroApi resposta) [22, 23]

/-! ### `float(...)` conversions -/

/-- Digits of a char list interpreted as a natural number, `none` if empty or
non-digit. -/
def digitosParaNat? (cs : List Char) : Option Nat :=
  if cs.isEmpty || !cs.all Char.isDigit then none else some (strToNatAux cs 0)

/-- Python `float(s)` for the decimal forms occurring in Tiny payloads:
optional sign, digits, optional fractional digits (exponents and the special
floats never occur there and are unmodelled — such strings raise, `none`).
The value is exact (`Rat`); on these inputs Python float arithmetic is exact
as well. -/
def stringParaRat (s : String) : Option Rat :=
  let cs := s.data
  let (negativo, corpo) :=
    match cs with
    | '-' :: resto => (true, resto)
    | '+' :: resto => (false, resto)
    | outro => (false, outro)
  let valor? : Option Rat :=
    match corpo.splitOn '.' with
    | [inteiro] => (digitosParaNat? inteiro).map (fun n => (n : Rat))
    | [inteiro, fracao] =>
      if inteiro.isEmpty && fracao.isEmpty then none
      else if (inteiro.all Char.isDigit) && (fracao.all Char.isDigit) then
        some ((strToNatAux inteiro 0 : Rat) +
          (strToNatAux fracao 0 : Rat) / ((10 : Rat) ^ fracao.length))
      else none
    | _ => none
  valor?.map (fun v => if negativo then -v else v)

/-- The idiom `float(v) if v else 0` applied to a decoded value: falsy values
give `0`; a number or parseable numeric string converts; anything else raises
`ValueError`/`TypeError` (`none`). -/
def paraFloat (v : JVal) : Option Rat :=
  if jFalsy v then some 0
  else match v with
    | .num n => some (n : Rat)
    | .str s => stringParaRat s
    | _ => none

/-- The `try: a = float(a) if a else 0; b = ...; c = ... except: a = b = c = 0`
blocks (products lines 1092-1100, order items lines 1713-1721): if any of the
three conversions raises, all three fall back to `0`. -/
def converterTripla (a b c : JVal) : Rat × Rat × Rat :=
  match paraFloat a, paraFloat b, paraFloat c with
  | some x, some y, some z => (x, y, z)
  | _, _, _ => (0, 0, 0)

/-- Same idiom for two values (order totals, lines 1629-1635). -/
def converterPar (a b : JVal) : Rat × Rat :=
  match paraFloat a, paraFloat b with
  | some x, some y => (x, y)
  | _, _ => (0, 0)

/-! ### The progress store (`controle_progresso`, lines 140-200)

The table is a `chave → valor` map; `salvar_progresso_db` is an
`INSERT ... ON CONFLICT (chave) DO UPDATE` keyed on `chave` (the primary key,
hence at most one row per key).  `ler_progresso_db` returns the stored value
or the caller's default (`None` at every call site that matters, modelled by
`Option`). -/

/-- State of the `controle_progresso` table. -/
abbrev Progresso : Type := List (String × String)

/-- Model of `ler_progresso_db(conn, chave)` with default `None`. -/
def lerProgresso : Progresso → String → Option String
  | [], _ => none
  | (k, v) :: resto, chave => if k = chave then some v else lerProgresso resto chave

/-- Model of `salvar_progresso_db(conn, chave, valor)`: update the (unique) row with
this key in place, or insert a fresh one. -/
def salvarProgresso : Progresso → String → String → Progresso
  | [], chave, valor => [(chave, valor)]
  | (k, v) :: resto, chave, valor =>
    if k = chave then (chave, valor) :: resto
    else (k, v) :: salvarProgresso resto chave valor

/-- The four `controle_progresso` keys (lines 53-56). -/
def CHAVE_PAGINA_PRODUTOS : String := "ultima_pagina_produto_processada"

/-- Timestamp key for products. -/
def CHAVE_TIMESTAMP_PRODUTOS : String := "timestamp_sincronizacao_produtos"

/-- Page key for orders. -/
def CHAVE_PAGINA_PEDIDOS : String := "ultima_pagina_pedido_processada"

/-- Timestamp key for orders. -/
def CHAVE_TIMESTAMP_PEDIDOS : String := "timestamp_sincronizacao_pedidos"

/-- Pages per product batch (line 59). -/
def PAGINAS_POR_LOTE_PRODUTOS : Nat := 3

/-- Max product batches per run (line 60). -/
def MAX_LOTES_PRODUTOS_POR_EXECUCAO : Nat := 10

/-- Pages per order batch (line 63). -/
def PAGINAS_POR_LOTE_PEDIDOS : Nat := 3

/-- Max order batches per run (line 64). -/
def MAX_LOTES_PEDIDOS_POR_EXECUCAO : Nat := 10

/-! ### Destination tables and `INSERT ... ON CONFLICT ... DO UPDATE`

Each data table is an association list keyed by the provider id (`JVal`,
compared with `jeq`, the value comparison PostgreSQL performs on the key
column).  `upsertTabela` models the script's upsert statements: the unique
index guarantees at most one row per key; on conflict every non-key column of
that row is overwritten with the incoming value, otherwise a fresh row is
inserted. -/

/-- Query `SELECT ... WHERE id = chave` (the unique row with the key, if any). -/
def procurarTabela {α : Type} : List (JVal × α) → JVal → Option α
  | [], _ => none
  | (k, a) :: resto, chave => if k.jeq chave then some a else procurarTabela resto chave

/-- Statement `INSERT ... ON CONFLICT (id) DO UPDATE SET <all non-key columns>`. -/
def upsertTabela {α : Type} : List (JVal × α) → JVal → α → List (JVal × α)
  | [], chave, a => [(chave, a)]
  | (k, b) :: resto, chave, a =>
    if k.jeq chave then (chave, a) :: resto
    else (k, b) :: upsertTabela resto chave a

/-- Number of rows with the given key. -/
def contaChave {α : Type} (t : List (JVal × α)) (chave : JVal) : Nat :=
  t.countP (fun p => p.1.jeq chave)

/-! ### Row shapes of the destination tables (§6 of the spec; DDL lines
367-568).  Fields hold the exact Python values the script binds into the
`INSERT` statements: `JVal.nul` models SQL `NULL`; converted monetary and
quantity fields are `Rat`. -/

/-- A `categorias` row (minus the key column `id_categoria_tiny`). -/
structure CategoriaRow where
  nomeCategoria : JVal
  idCategoriaPai : JVal
deriving Repr

/-- A `produtos` row (minus the key column `id_produto_tiny`). -/
structure ProdutoRow where
  nomeProduto : JVal
  sku : JVal
  precoVenda : Rat
  precoCusto : Rat
  unidade : JVal
  tipoProduto : JVal
  estoqueAtual : Rat
  situacao : JVal
  idCategoriaProduto : JVal
deriving Repr

/-- A `vendedores` row (minus the key column `id_vendedor_tiny`). -/
structure VendedorRow where
  nomeVendedor : JVal
  situacaoVendedor : JVal
deriving Repr

/-- A `pedidos` row (minus the key column `id_pedido_tiny`). -/
structure PedidoRow where
  numeroPedido : JVal
  dataPedido : JVal
  idListaPreco : JVal
  descricaoListaPreco : JVal
  nomeCliente : JVal
  cpfCnpjCliente : JVal
  emailCliente : JVal
  foneCliente : JVal
  idVendedor : JVal
  nomeVendedorPedido : JVal
  situacaoPedido : JVal
  valorTotalPedido : Rat
  valorDescontoPedido : Rat
  condicaoPagamento : JVal
  formaPagamento : JVal
deriving Repr

/-- An `itens_pedido` row; `idItemPedido` is the synthetic string primary key
`f"{id_pedido}_{sequencia}"`. -/
structure ItemPedidoRow where
  idItemPedido : String
  idPedido : JVal
  idProduto : JVal
  skuProduto : JVal
  descricaoItem : JVal
  unidadeItem : JVal
  quantidadeItem : Rat
  valorUnitarioItem : Rat
  valorTotalItem : Rat
deriving Repr

/-- The destination database state. -/
structure DB where
  categorias : List (JVal × CategoriaRow)
  produtos : List (JVal × ProdutoRow)
  vendedores : List (JVal × VendedorRow)
  pedidos : List (JVal × PedidoRow)
  itensPedido : List ItemPedidoRow
deriving Repr

/-- The empty database. -/
def dbVazio : DB := ⟨[], [], [], [], []⟩

/-- Rows of `itens_pedido` belonging to one order id. -/
def contaItensPedido (db : DB) (idPedido : JVal) : Nat :=
  db.itensPedido.countP (fun r => r.idPedido.jeq idPedido)

/-! ### The network environment

All HTTP traffic of one run, as a pure map from request to decoded response
(`fazer_requisicao_tiny` adds bearer token and `formato=json`; its transient
retry loop either yields a decoded response or the `{"erro": ...}` dict, both
of which are just `JVal`s here).  The two `commit...` oracles inject
destination-store failures of the corresponding `conn.commit()` calls: `false`
means the commit raises and the transaction rolls back. -/
structure Ambiente where
  /-- Response of `categoria.obter.arvore.php`. -/
  categoriasResp : JVal
  /-- Response of `produtos.pesquisa.php` for a page number. -/
  produtosPesquisa : Nat → JVal
  /-- Response of `produto.pesquisar.alteracoes.php` for a timestamp. -/
  produtosAlteracoes : String → JVal
  /-- Response of `produto.obter.php` for a product id. -/
  produtoObter : JVal → JVal
  /-- Response of `contatos.pesquisa.php`. -/
  contatosResp : JVal
  /-- Response of `pedidos.pesquisa.php` for a page number. -/
  pedidosPesquisa : Nat → JVal
  /-- Response of `pedidos.pesquisa.php` for a `data_alteracao_inicial`. -/
  pedidosAlteracoes : String → JVal
  /-- Response of `pedido.obter.php` for an order id. -/
  pedidoObter : JVal → JVal
  /-- Does the page-level commit (line 987) succeed for this page? -/
  commitPaginaProdutos : Nat → Bool
  /-- Does the page-level commit (line 1498) succeed for this page? -/
  commitPaginaPedidos : Nat → Bool
  /-- Does the order-transaction commit (line 1740) succeed for this order? -/
  commitPedido : JVal → Bool

/-! ### Shared response plumbing -/

/-- Check `isinstance(retorno, dict) and 'status' in retorno and
retorno['status'] == 'Erro'`. -/
def statusErro (retorno : JVal) : Bool :=
  match getCampo? retorno "status" with
  | some v => v.jeq (.str "Erro")
  | none => false

/-- The record-list extraction idiom (e.g. lines 937-941): `[]`, overridden by
`retorno[chave]` when `retorno` is a dict containing `chave`, or by `retorno`
itself when it is a list. -/
def listaDe (retorno : JVal) (chave : String) : JVal :=
  match retorno with
  | .dict campos =>
    match procurarAssoc campos chave with
    | some v => v
    | none => .lst []
  | .lst xs => .lst xs
  | _ => .lst []

/-- The shared prelude of `buscar_e_gravar_detalhes_produto` (lines 1047-1074)
and `buscar_e_gravar_detalhes_pedido` (lines 1557-1584): reject a transport
error, a missing `retorno`, a `status == 'Erro'`, and then extract
`retorno[chave]` (dict) or the first element of a list `retorno`; fail unless
the result is a truthy dict. -/
def registroDetalhe (resposta : JVal) (chave : String) : Option JVal :=
  if (getCampo? resposta "erro").isSome then none
  else match getCampo? resposta "retorno" with
  | none => none
  | some retorno =>
    if statusErro retorno then none
    else
      let registro? : Option JVal :=
        match retorno with
        | .dict rs => procurarAssoc rs chave
        | .lst (x :: _) => some x
        | _ => none
      match registro? with
      | some r => if jFalsy r || !ehDict r then none else some r
      | none => none

/-! ### `sincronizar_categorias` (lines 651-742) -/

/-- The per-record loop of `sincronizar_categorias` (lines 691-727): skip
non-dicts, skip records with falsy/missing `id` or `nome`, normalise a
falsy-or-`"0"` parent id to `NULL`, upsert the rest. -/
def processarCategorias : List JVal → List (JVal × CategoriaRow) → List (JVal × CategoriaRow)
  | [], t => t
  | c :: resto, t =>
    match c with
    | .dict campos =>
      let idCategoria := (procurarAssoc campos "id").getD .nul
      let nomeCategoria := (procurarAssoc campos "nome").getD .nul
      let idPai0 := (procurarAssoc campos "idPai").getD .nul
      if jFalsy idCategoria || jFalsy nomeCategoria then processarCategorias resto t
      else
        let idPai := if jFalsy idPai0 || idPai0.jeq (.str "0") then .nul else idPai0
        processarCategorias resto (upsertTabela t idCategoria ⟨nomeCategoria, idPai⟩)
    | _ => processarCategorias resto t

/-- Model of `sincronizar_categorias(conn)`: returns the success flag and the database
after the run.  (A per-record `INSERT` can only fail on a destination-store
error, which is outside the fault model for this statement; the transaction
then commits as a whole.) -/
def sincronizarCategorias (db : DB) (resposta : JVal) : Bool × DB :=
  if (getCampo? resposta "erro").isSome then (false, db)
  else match getCampo? resposta "retorno" with
  | none => (false, db)
  | some retorno =>
    let categorias? : Option JVal :=
      match retorno with
      | .lst xs => some (.lst xs)
      | .dict campos => procurarAssoc campos "categorias"
      | _ => none
    match categorias? with
    | none => (false, db)  -- "Formato de resposta ... não reconhecido"
    | some categorias =>
      if jFalsy categorias then (true, db)  -- "Nenhuma categoria encontrada"
      else match iteravel categorias with
        | none => (false, db)  -- TypeError, caught at line 734
        | some registros =>
          (true, { db with categorias := processarCategorias registros db.categorias })

/-! ### `sincronizar_vendedores` (lines 1156-1254) -/

/-- The filter `tipo == 'V'` (lines 1194-1202); non-dict entries are dropped
with a warning. -/
def filtrarVendedores (contatos : List JVal) : List JVal :=
  contatos.filter (fun c => ehDict c && (getCampo c "tipo" .nul).jeq (.str "V"))

/-- The per-record upsert loop of `sincronizar_vendedores` (lines 1214-1239):
skip records with falsy/missing `id` or `nome`; `situacao` defaults to `'A'`.
(The input has already been filtered to dicts.) -/
def processarVendedores : List JVal → List (JVal × VendedorRow) → List (JVal × VendedorRow)
  | [], t => t
  | v :: resto, t =>
    let idVendedor := getCampo v "id" .nul
    let nomeVendedor := getCampo v "nome" .nul
    let situacaoVendedor := getCampo v "situacao" (.str "A")
    if jFalsy idVendedor || jFalsy nomeVendedor then processarVendedores resto t
    else processarVendedores resto (upsertTabela t idVendedor ⟨nomeVendedor, situacaoVendedor⟩)

/-- Model of `sincronizar_vendedores(conn)`. -/
def sincronizarVendedores (db : DB) (resposta : JVal) : Bool × DB :=
  if (getCampo? resposta "erro").isSome then (false, db)
  else match getCampo? resposta "retorno" with
  | none => (false, db)
  | some retorno =>
    if statusErro retorno then (false, db)
    else
      let contatos := listaDe retorno "contatos"
      if jFalsy contatos then (true, db)  -- "Nenhum contato encontrado"
      else match iteravel contatos with
        | none => (false, db)  -- TypeError at the len() call, caught at 1246
        | some cs =>
          let vendedores := filtrarVendedores cs
          if vendedores.isEmpty then (true, db)  -- "Nenhum vendedor encontrado"
          else (true, { db with vendedores := processarVendedores vendedores db.vendedores })

/-! ### `buscar_e_gravar_detalhes_produto` (lines 1043-1152) -/

/-- Field extraction and normalisation for one product detail record
(lines 1077-1104): defaults, `'' → NULL` for `sku`, the three-way float
conversion, and `idCategoria` falsy-or-`"0"` → `NULL`. -/
def produtoRowDe (produto : JVal) : ProdutoRow :=
  let nomeProduto := getCampo produto "nome" (.str "")
  let sku0 := getCampo produto "codigo" (.str "")
  let precoVenda0 := getCampo produto "preco" (.num 0)
  let precoCusto0 := getCampo produto "precoCusto" (.num 0)
  let unidade := getCampo produto "unidade" (.str "")
  let tipoProduto := getCampo produto "tipo" (.str "")
  let estoqueAtual0 := getCampo produto "saldo" (.num 0)
  let situacao := getCampo produto "situacao" (.str "")
  let idCategoria0 := getCampo produto "idCategoria" .nul
  let sku := if sku0.jeq (.str "") then .nul else sku0
  let (precoVenda, precoCusto, estoqueAtual) :=
    converterTripla precoVenda0 precoCusto0 estoqueAtual0
  let idCategoria :=
    if jFalsy idCategoria0 || idCategoria0.jeq (.str "0") then .nul else idCategoria0
  ⟨nomeProduto, sku, precoVenda, precoCusto, unidade, tipoProduto,
    estoqueAtual, situacao, idCategoria⟩

/-- Model of `buscar_e_gravar_detalhes_produto(conn, id_produto)`: fetch the detail,
normalise, upsert keyed on the id the caller passed, and commit that single
product.  (The product-level `INSERT`'s own failure mode is a
destination-store error outside the fault model; every failure path of the
function leaves the database unchanged.) -/
def buscarEGravarDetalhesProduto (env : Ambiente) (db : DB) (idProduto : JVal) : Bool × DB :=
  match registroDetalhe (env.produtoObter idProduto) "produto" with
  | none => (false, db)
  | some produto =>
    (true, { db with produtos := upsertTabela db.produtos idProduto (produtoRowDe produto) })

/-! ### `buscar_e_gravar_detalhes_pedido` (lines 1553-1754) -/

/-- Field extraction and normalisation for one order detail record
(lines 1587-1635): customer sub-dict, `DD/MM/YYYY → YYYY-MM-DD` date
conversion (`NULL` when the shape differs or the value is falsy), seller id
`'' | '0' → NULL`, and the two-way float conversion. -/
def pedidoRowDe (pedido : JVal) : PedidoRow :=
  let numeroPedido := getCampo pedido "numero" (.str "")
  let dataPedidoStr := getCampo pedido "data_pedido" (.str "")
  let idListaPreco := getCampo pedido "id_lista_preco" (.str "")
  let descricaoListaPreco := getCampo pedido "descricao_lista_preco" (.str "")
  let cliente0 := getCampo pedido "cliente" (.dict [])
  let cliente := if ehDict cliente0 then cliente0 else .dict []
  let nomeCliente := getCampo cliente "nome" (.str "")
  let cpfCnpjCliente := getCampo cliente "cpf_cnpj" (.str "")
  let emailCliente := getCampo cliente "email" (.str "")
  let foneCliente := getCampo cliente "fone" (.str "")
  let idVendedor0 := getCampo pedido "id_vendedor" .nul
  let nomeVendedorPedido := getCampo pedido "nome_vendedor" (.str "")
  let situacaoPedido := getCampo pedido "situacao" (.str "")
  let valorTotal0 := getCampo pedido "valor_total" (.num 0)
  let valorDesconto0 := getCampo pedido "valor_desconto" (.num 0)
  let condicaoPagamento := getCampo pedido "forma_pagamento" (.str "")
  let formaPagamento := getCampo pedido "meio_pagamento" (.str "")
  let dataPedido : JVal :=
    if jFalsy dataPedidoStr then .nul
    else match dataPedidoStr with
      | .str s =>
        match (s.data.splitOn '/').map (fun l => String.mk l) with
        | [dia, mes, ano] => .str (ano ++ "-" ++ mes ++ "-" ++ dia)
        | _ => .nul
      | _ => .nul  -- AttributeError on .split, caught at line 1621
  let idVendedor :=
    if idVendedor0.jeq (.str "") || idVendedor0.jeq (.str "0") then .nul else idVendedor0
  let (valorTotalPedido, valorDescontoPedido) := converterPar valorTotal0 valorDesconto0
  ⟨numeroPedido, dataPedido, idListaPreco, descricaoListaPreco,
    nomeCliente, cpfCnpjCliente, emailCliente, foneCliente,
    idVendedor, nomeVendedorPedido, situacaoPedido,
    valorTotalPedido, valorDescontoPedido, condicaoPagamento, formaPagamento⟩

/-- One `itens_pedido` row from one item dict (lines 1695-1721): synthetic key
`f"{id_pedido}_{sequencia}"`, `'' | '0' → NULL` for the product id, `'' →
NULL` for the sku, and the three-way float conversion. -/
def itemRowDe (idPedido : JVal) (item : JVal) : ItemPedidoRow :=
  let idItemPedido := jStr idPedido ++ "_" ++ jStr (getCampo item "sequencia" (.str ""))
  let idProduto0 := getCampo item "id_produto" .nul
  let idProduto :=
    if idProduto0.jeq (.str "") || idProduto0.jeq (.str "0") then .nul else idProduto0
  let skuProduto0 := getCampo item "codigo" (.str "")
  let skuProduto := if skuProduto0.jeq (.str "") then .nul else skuProduto0
  let descricaoItem := getCampo item "descricao" (.str "")
  let unidadeItem := getCampo item "unidade" (.str "")
  let quantidade0 := getCampo item "quantidade" (.num 0)
  let valorUnitario0 := getCampo item "valor_unitario" (.num 0)
  let valorTotal0 := getCampo item "valor_total" (.num 0)
  let (quantidadeItem, valorUnitarioItem, valorTotalItem) :=
    converterTripla quantidade0 valorUnitario0 valorTotal0
  ⟨idItemPedido, idPedido, idProduto, skuProduto, descricaoItem, unidadeItem,
    quantidadeItem, valorUnitarioItem, valorTotalItem⟩

/-- Coercion `itens = pedido.get('itens', []); if not isinstance(itens, list): itens = []`
(lines 1679-1681). -/
def itensDe (pedido : JVal) : List JVal :=
  match getCampo? pedido "itens" with
  | some (.lst xs) => xs
  | _ => []

/-- The order transaction (the `try` block at lines 1642-1741): upsert the
order row; when the incoming item list is non-empty, delete this order's
items and insert the incoming dict items; commit.  A failure anywhere in the
block (injected through `commitOk`) rolls the whole transaction back. -/
def gravarPedidoTransacao (db : DB) (idPedido : JVal) (pedido : JVal)
    (commitOk : Bool) : Bool × DB :=
  let db1 := { db with pedidos := upsertTabela db.pedidos idPedido (pedidoRowDe pedido) }
  let itens := itensDe pedido
  let dbNovo :=
    if itens.isEmpty then db1
    else { db1 with itensPedido :=
      db1.itensPedido.filter (fun r => !(r.idPedido.jeq idPedido))
        ++ (itens.filter ehDict).map (itemRowDe idPedido) }
  if commitOk then (true, dbNovo) else (false, db)

/-- Model of `buscar_e_gravar_detalhes_pedido(conn, id_pedido)`. -/
def buscarEGravarDetalhesPedido (env : Ambiente) (db : DB) (idPedido : JVal) : Bool × DB :=
  match registroDetalhe (env.pedidoObter idPedido) "pedido" with
  | none => (false, db)
  | some pedido => gravarPedidoTransacao db idPedido pedido (env.commitPedido idPedido)

/-! ### The per-page record loop (lines 965-983, textually repeated at lines
826-844): skip non-dicts, skip entries with falsy/missing `id`, otherwise
fetch-and-write the detail; a failed record only bumps the error counter and
the loop continues. -/

/-- Fold of `buscar_e_gravar_detalhes_produto` over a record list, returning
the database and the `(produtos_processados, produtos_com_erro)` counters. -/
def processarListaProdutos (env : Ambiente) :
    List JVal → DB → Nat → Nat → DB × Nat × Nat
  | [], db, proc, err => (db, proc, err)
  | item :: resto, db, proc, err =>
    match getCampo? item "id" with
    | some idProduto =>
      if jFalsy idProduto then processarListaProdutos env resto db proc err
      else
        let (ok, db2) := buscarEGravarDetalhesProduto env db idProduto
        if ok then processarListaProdutos env resto db2 (proc + 1) err
        else processarListaProdutos env resto db2 proc (err + 1)
    | none => processarListaProdutos env resto db proc err

/-- Same loop over order records (lines 1476-1494 / 1342-1360). -/
def processarListaPedidos (env : Ambiente) :
    List JVal → DB → Nat → Nat → DB × Nat × Nat
  | [], db, proc, err => (db, proc, err)
  | item :: resto, db, proc, err =>
    match getCampo? item "id" with
    | some idPedido =>
      if jFalsy idPedido then processarListaPedidos env resto db proc err
      else
        let (ok, db2) := buscarEGravarDetalhesPedido env db idPedido
        if ok then processarListaPedidos env resto db2 (proc + 1) err
        else processarListaPedidos env resto db2 proc (err + 1)
    | none => processarListaPedidos env resto db proc err

/-! ### Products synchronisation (lines 746-1041) -/

/-- Result of a products synchronisation call: the `(sucesso,
ainda_ha_produtos)` pair the Python function returns, the progress store and
database after the call, plus two pieces of pure instrumentation that do not
feed back into behaviour: the total number of successfully processed detail
records and the list of page numbers requested from `produtos.pesquisa.php`
in order. -/
structure ResultadoProdutos where
  sucesso : Bool
  restantes : Bool
  progresso : Progresso
  db : DB
  processados : Nat
  trace : List Nat
deriving Repr

/-- Record a page fetch in the instrumentation trace. -/
def comPagina (pagina : Nat) (r : ResultadoProdutos) : ResultadoProdutos :=
  { r with trace := pagina :: r.trace }

/-- Model of `buscar_e_gravar_produtos_incremental(conn, timestamp_ultimo)`
(lines 761-863). -/
def buscarEGravarProdutosIncremental (env : Ambiente) (agora : String)
    (prog : Progresso) (db : DB) (timestampUltimo : String) : ResultadoProdutos :=
  let resposta := env.produtosAlteracoes timestampUltimo
  if (getCampo? resposta "erro").isSome then ⟨false, true, prog, db, 0, []⟩
  else match getCampo? resposta "retorno" with
  | none => ⟨false, true, prog, db, 0, []⟩
  | some retorno =>
    if statusErro retorno then
      if codigoEm (extrairCodigoErroApi resposta) [14, 34] then
        ⟨true, false, salvarProgresso prog CHAVE_TIMESTAMP_PRODUTOS agora, db, 0, []⟩
      else ⟨false, true, prog, db, 0, []⟩
    else
      let lista := listaDe retorno "produtos"
      if jFalsy lista then
        ⟨true, false, salvarProgresso prog CHAVE_TIMESTAMP_PRODUTOS agora, db, 0, []⟩
      else match iteravel lista with
      | none => ⟨false, true, prog, db, 0, []⟩  -- TypeError at len(), caught at 855
      | some registros =>
        let (db2, proc2, _) := processarListaProdutos env registros db 0 0
        ⟨true, false, salvarProgresso prog CHAVE_TIMESTAMP_PRODUTOS agora, db2, proc2, []⟩

/-- The inner page loop of `buscar_e_gravar_produtos_carga_completa`
(lines 890-1006), parameterised by the continuation `cont` run when the pages
of the current batch are exhausted.  Each iteration fetches one page and
either returns (transport error / malformed response / `TypeError`, saving
the current page as the checkpoint), finishes the whole backfill (end of
pagination: record the timestamp, clear the page cursor), or advances to the
next page (empty or processed page, saving `pagina + 1` as the checkpoint; a
failed page-level commit is rolled back — a no-op, since every product detail
was already committed individually — and the loop continues identically). -/
def cargaProdutosInner (env : Ambiente) (agora : String)
    (cont : Progresso → DB → Nat → Nat → ResultadoProdutos) :
    Nat → Progresso → DB → Nat → Nat → ResultadoProdutos
  | 0, prog, db, pagina, proc => cont prog db pagina proc
  | paginasRest + 1, prog, db, pagina, proc =>
    let resposta := env.produtosPesquisa pagina
    comPagina pagina <|
      if (getCampo? resposta "erro").isSome then
        ⟨false, true, salvarProgresso prog CHAVE_PAGINA_PRODUTOS (natParaStr pagina),
          db, proc, []⟩
      else if verificarFimPaginacao resposta then
        ⟨true, false,
          salvarProgresso (salvarProgresso prog CHAVE_TIMESTAMP_PRODUTOS agora)
            CHAVE_PAGINA_PRODUTOS "",
          db, proc, []⟩
      else match getCampo? resposta "retorno" with
      | none =>
        ⟨false, true, salvarProgresso prog CHAVE_PAGINA_PRODUTOS (natParaStr pagina),
          db, proc, []⟩
      | some retorno =>
        let lista := listaDe retorno "produtos"
        if jFalsy lista then
          cargaProdutosInner env agora cont paginasRest
            (salvarProgresso prog CHAVE_PAGINA_PRODUTOS (natParaStr (pagina + 1)))
            db (pagina + 1) proc
        else match iteravel lista with
        | none =>
          ⟨false, true, salvarProgresso prog CHAVE_PAGINA_PRODUTOS (natParaStr pagina),
            db, proc, []⟩
        | some registros =>
          let (db2, proc2, _) := processarListaProdutos env registros db proc 0
          if env.commitPaginaProdutos pagina then
            cargaProdutosInner env agora cont paginasRest
              (salvarProgresso prog CHAVE_PAGINA_PRODUTOS (natParaStr (pagina + 1)))
              db2 (pagina + 1) proc2
          else
            cargaProdutosInner env agora cont paginasRest
              (salvarProgresso prog CHAVE_PAGINA_PRODUTOS (natParaStr (pagina + 1)))
              db2 (pagina + 1) proc2

/-- The outer batch loop of `buscar_e_gravar_produtos_carga_completa`
(lines 886-1026): run batches of `PAGINAS_POR_LOTE_PRODUTOS` pages until the
batch budget is exhausted (`(True, True)`: success, work remains) or the
inner loop terminates the run. -/
def cargaProdutosOuter (env : Ambiente) (agora : String) :
    Nat → Progresso → DB → Nat → Nat → ResultadoProdutos
  | 0, prog, db, _, proc => ⟨true, true, prog, db, proc, []⟩
  | lotesRest + 1, prog, db, pagina, proc =>
    cargaProdutosInner env agora (cargaProdutosOuter env agora lotesRest)
      PAGINAS_POR_LOTE_PRODUTOS prog db pagina proc

/-- The resume-page computation of `buscar_e_gravar_produtos_carga_completa`
(lines 869-877): the stored cursor when it is a nonempty digit string, page 1
otherwise. -/
def paginaInicialProdutos (prog : Progresso) : Nat :=
  match lerProgresso prog CHAVE_PAGINA_PRODUTOS with
  | some s => if ehDigitos s then strToNat s else 1
  | none => 1

/-- Model of `buscar_e_gravar_produtos_carga_completa(conn)` (lines 865-1041). -/
def buscarEGravarProdutosCargaCompleta (env : Ambiente) (agora : String)
    (prog : Progresso) (db : DB) : ResultadoProdutos :=
  cargaProdutosOuter env agora MAX_LOTES_PRODUTOS_POR_EXECUCAO prog db
    (paginaInicialProdutos prog) 0

/-- The two sync modes of products/orders (§4.5 of the spec). -/
inductive ModoSync where
  | cargaCompleta
  | incremental
deriving DecidableEq, Repr

/-- The mode decision of `buscar_e_gravar_produtos` (lines 750-759):
incremental iff the stored timestamp is truthy (present and nonempty). -/
def modoProdutos (prog : Progresso) : ModoSync :=
  match lerProgresso prog CHAVE_TIMESTAMP_PRODUTOS with
  | some ts => if ts = "" then .cargaCompleta else .incremental
  | none => .cargaCompleta

/-- Model of `buscar_e_gravar_produtos(conn, ...)` (lines 746-759): dispatch on the
stored timestamp. -/
def buscarEGravarProdutos (env : Ambiente) (agora : String)
    (prog : Progresso) (db : DB) : ResultadoProdutos :=
  match lerProgresso prog CHAVE_TIMESTAMP_PRODUTOS with
  | some ts =>
    if ts = "" then buscarEGravarProdutosCargaCompleta env agora prog db
    else buscarEGravarProdutosIncremental env agora prog db ts
  | none => buscarEGravarProdutosCargaCompleta env agora prog db

/-! ### Orders synchronisation (lines 1258-1551) -/

/-- Result of an orders synchronisation call: the success flag the Python
function returns, the progress store and database after the call, and the
page trace instrumentation. -/
structure ResultadoPedidos where
  sucesso : Bool
  progresso : Progresso
  db : DB
  trace : List Nat
deriving Repr

/-- Record a page fetch in the orders trace. -/
def comPaginaPed (pagina : Nat) (r : ResultadoPedidos) : ResultadoPedidos :=
  { r with trace := pagina :: r.trace }

/-- Expression `timestamp_ultimo.split()[0]` (line 1279): first whitespace-separated
token; `none` models the `IndexError` on an all-whitespace string, caught by
the function-level `except`. -/
def primeiroToken (s : String) : Option String :=
  let espaco : Char → Bool := fun c => c = ' ' || c = '\t' || c = '\n' || c = '\r'
  let tok := (s.data.dropWhile espaco).takeWhile (fun c => !espaco c)
  if tok.isEmpty then none else some (String.mk tok)

/-- Model of `buscar_e_gravar_pedidos_incremental(conn, timestamp_ultimo)`
(lines 1273-1379). -/
def buscarEGravarPedidosIncremental (env : Ambiente) (agora : String)
    (prog : Progresso) (db : DB) (timestampUltimo : String) : ResultadoPedidos :=
  match primeiroToken timestampUltimo with
  | none => ⟨false, prog, db, []⟩
  | some dataAlteracao =>
    let resposta := env.pedidosAlteracoes dataAlteracao
    if (getCampo? resposta "erro").isSome then ⟨false, prog, db, []⟩
    else match getCampo? resposta "retorno" with
    | none => ⟨false, prog, db, []⟩
    | some retorno =>
      if statusErro retorno then
        if codigoEm (extrairCodigoErroApi resposta) [14, 34] then
          ⟨true, salvarProgresso prog CHAVE_TIMESTAMP_PEDIDOS agora, db, []⟩
        else ⟨false, prog, db, []⟩
      else
        let lista := listaDe retorno "pedidos"
        if jFalsy lista then
          ⟨true, salvarProgresso prog CHAVE_TIMESTAMP_PEDIDOS agora, db, []⟩
        else match iteravel lista with
        | none => ⟨false, prog, db, []⟩  -- TypeError at len(), caught at 1371
        | some registros =>
          let (db2, _, _) := processarListaPedidos env registros db 0 0
          ⟨true, salvarProgresso prog CHAVE_TIMESTAMP_PEDIDOS agora, db2, []⟩

/-- The inner page loop of `buscar_e_gravar_pedidos_carga_completa`
(lines 1405-1517); same structure as the products loop. -/
def cargaPedidosInner (env : Ambiente) (agora : String)
    (cont : Progresso → DB → Nat → ResultadoPedidos) :
    Nat → Progresso → DB → Nat → ResultadoPedidos
  | 0, prog, db, pagina => cont prog db pagina
  | paginasRest + 1, prog, db, pagina =>
    let resposta := env.pedidosPesquisa pagina
    comPaginaPed pagina <|
      if (getCampo? resposta "erro").isSome then
        ⟨false, salvarProgresso prog CHAVE_PAGINA_PEDIDOS (natParaStr pagina), db, []⟩
      else if verificarFimPaginacao resposta then
        ⟨true,
          salvarProgresso (salvarProgresso prog CHAVE_TIMESTAMP_PEDIDOS agora)
            CHAVE_PAGINA_PEDIDOS "",
          db, []⟩
      else match getCampo? resposta "retorno" with
      | none =>
        ⟨false, salvarProgresso prog CHAVE_PAGINA_PEDIDOS (natParaStr pagina), db, []⟩
      | some retorno =>
        let lista := listaDe retorno "pedidos"
        if jFalsy lista then
          cargaPedidosInner env agora cont paginasRest
            (salvarProgresso prog CHAVE_PAGINA_PEDIDOS (natParaStr (pagina + 1)))
            db (pagina + 1)
        else match iteravel lista with
        | none =>
          ⟨false, salvarProgresso prog CHAVE_PAGINA_PEDIDOS (natParaStr pagina), db, []⟩
        | some registros =>
          let (db2, _, _) := processarListaPedidos env registros db 0 0
          if env.commitPaginaPedidos pagina then
            cargaPedidosInner env agora cont paginasRest
              (salvarProgresso prog CHAVE_PAGINA_PEDIDOS (natParaStr (pagina + 1)))
              db2 (pagina + 1)
          else
            cargaPedidosInner env agora cont paginasRest
              (salvarProgresso prog CHAVE_PAGINA_PEDIDOS (natParaStr (pagina + 1)))
              db2 (pagina + 1)

/-- The outer batch loop of `buscar_e_gravar_pedidos_carga_completa`
(lines 1401-1536). -/
def cargaPedidosOuter (env : Ambiente) (agora : String) :
    Nat → Progresso → DB → Nat → ResultadoPedidos
  | 0, prog, db, _ => ⟨true, prog, db, []⟩
  | lotesRest + 1, prog, db, pagina =>
    cargaPedidosInner env agora (cargaPedidosOuter env agora lotesRest)
      PAGINAS_POR_LOTE_PEDIDOS prog db pagina

/-- The resume-page computation for orders (lines 1386-1393). -/
def paginaInicialPedidos (prog : Progresso) : Nat :=
  match lerProgresso prog CHAVE_PAGINA_PEDIDOS with
  | some s => if ehDigitos s then strToNat s else 1
  | none => 1

/-- Model of `buscar_e_gravar_pedidos_carga_completa(conn)` (lines 1381-1551). -/
def buscarEGravarPedidosCargaCompleta (env : Ambiente) (agora : String)
    (prog : Progresso) (db : DB) : ResultadoPedidos :=
  cargaPedidosOuter env agora MAX_LOTES_PEDIDOS_POR_EXECUCAO prog db
    (paginaInicialPedidos prog)

/-- The mode decision of `buscar_e_gravar_pedidos_e_itens` (lines 1262-1271). -/
def modoPedidos (prog : Progresso) : ModoSync :=
  match lerProgresso prog CHAVE_TIMESTAMP_PEDIDOS with
  | some ts => if ts = "" then .cargaCompleta else .incremental
  | none => .cargaCompleta

/-- Model of `buscar_e_gravar_pedidos_e_itens(conn)` (lines 1258-1271). -/
def buscarEGravarPedidosEItens (env : Ambiente) (agora : String)
    (prog : Progresso) (db : DB) : ResultadoPedidos :=
  match lerProgresso prog CHAVE_TIMESTAMP_PEDIDOS with
  | some ts =>
    if ts = "" then buscarEGravarPedidosCargaCompleta env agora prog db
    else buscarEGravarPedidosIncremental env agora prog db ts
  | none => buscarEGravarPedidosCargaCompleta env agora prog db

/-! ### The run pipeline (`main`, lines 1758-1855)

Modelled from the point where the connection and the tables exist (their
creation touches no data).  Category failure logs and continues; the products
stage runs in a loop of up to `MAX_LOTES_PRODUTOS_POR_EXECUCAO` calls; if it
ends unsuccessfully or with work remaining, the run returns before sellers
and orders. -/

/-- One stage of a run. -/
inductive Etapa where
  | categorias
  | produtos
  | vendedores
  | pedidos
deriving DecidableEq, Repr

/-- The `while produtos_restantes` loop of `main` (lines 1797-1818): the
returned flag says whether the run proceeds to the sellers/orders stages.
`fuel` counts the remaining allowed values of `lote_atual` (initially
`MAX_LOTES_PRODUTOS_POR_EXECUCAO`; exceeding it returns with work pending). -/
def mainLoopProdutos (env : Ambiente) (agora : String) :
    Nat → Progresso → DB → Bool × Progresso × DB
  | 0, prog, db => (false, prog, db)
  | fuel + 1, prog, db =>
    let r := buscarEGravarProdutos env agora prog db
    if r.sucesso then
      if r.restantes then mainLoopProdutos env agora fuel r.progresso r.db
      else (true, r.progresso, r.db)
    else (!r.restantes, r.progresso, r.db)

/-- Result of one scheduled run. -/
structure ResultadoExecucao where
  progresso : Progresso
  db : DB
  etapas : List Etapa
deriving Repr

/-- The data-synchronisation part of `main`: categories, then the products
loop, then — only if products finished — sellers and orders.  `etapas` lists
the stages the run attempted, in order. -/
def executarPrincipal (env : Ambiente) (agora : String)
    (prog : Progresso) (db : DB) : ResultadoExecucao :=
  let (_, db1) := sincronizarCategorias db env.categoriasResp
  let (prossegue, prog2, db2) :=
    mainLoopProdutos env agora MAX_LOTES_PRODUTOS_POR_EXECUCAO prog db1
  if prossegue then
    let (_, db3) := sincronizarVendedores db2 env.contatosResp
    let rp := buscarEGravarPedidosEItens env agora prog2 db3
    ⟨rp.progresso, rp.db, [.categorias, .produtos, .vendedores, .pedidos]⟩
  else ⟨prog2, db2, [.categorias, .produtos]⟩

/-! ### Concrete scenario data used by the claim theorems below -/

/-- Order detail for order 1 whose incoming item list is empty. -/
def pedidoSemItens : JVal :=
  .dict [("numero", .str "42"), ("itens", .lst [])]

/-- A database holding order 1 with three stored line items. -/
def dbTresItens : DB :=
  { dbVazio with
    pedidos := [(.num 1, pedidoRowDe (.dict [("numero", .str "42")]))]
    itensPedido :=
      [⟨"1_1", .num 1, .nul, .nul, .str "a", .str "un", 1, 1, 1⟩,
       ⟨"1_2", .num 1, .nul, .nul, .str "b", .str "un", 1, 1, 1⟩,
       ⟨"1_3", .num 1, .nul, .nul, .str "c", .str "un", 1, 1, 1⟩] }

/-- Environment whose order-detail endpoint returns, for any id, an order
whose incoming item list is empty. -/
def envItensVazios : Ambiente :=
  { categoriasResp := .dict []
    produtosPesquisa := fun _ => .dict []
    produtosAlteracoes := fun _ => .dict []
    produtoObter := fun _ => .dict []
    contatosResp := .dict []
    pedidosPesquisa := fun _ => .dict []
    pedidosAlteracoes := fun _ => .dict []
    pedidoObter := fun _ => .dict [("retorno", .dict [("pedido", pedidoSemItens)])]
    commitPaginaProdutos := fun _ => true
    commitPaginaPedidos := fun _ => true
    commitPedido := fun _ => true }

/-- Order detail for the 3-items-to-1 shrink scenario: a single incoming item. -/
def pedidoUmItem : JVal :=
  .dict [("numero", .str "42"),
    ("itens", .lst [.dict [("sequencia", .str "1"), ("codigo", .str "SKU1"),
      ("descricao", .str "only item"), ("quantidade", .str "1"),
      ("valor_unitario", .str "10"), ("valor_total", .str "10")]])]

/-- An order item whose provider-reported total (7) disagrees with
quantity × unit price (2 × 5 = 10). -/
def itemTotalDivergente : JVal :=
  .dict [("sequencia", .str "1"), ("quantidade", .str "2"),
    ("valor_unitario", .str "5"), ("valor_total", .str "7")]

/-- Environment whose order-detail endpoint returns an order with the single
item `itemTotalDivergente`. -/
def envTotalDivergente : Ambiente :=
  { envItensVazios with
    pedidoObter := fun _ => .dict [("retorno", .dict [("pedido",
      .dict [("numero", .str "1"), ("itens", .lst [itemTotalDivergente])])])] }

/-- Environment whose product-detail endpoint returns, for any id, a product
record that has no `nome` field. -/
def envProdutoSemNome : Ambiente :=
  { envItensVazios with
    produtoObter := fun _ => .dict [("retorno", .dict [("produto",
      .dict [("id", .num 7), ("preco", .str "12.5")])])] }

/-- A listing response with an empty record list and no end-of-pagination
code. -/
def respPaginaVazia : JVal := .dict [("retorno", .dict [("produtos", .lst [])])]

/-- Environment in which every products listing page is empty (and carries no
end code). -/
def envPaginasVazias : Ambiente :=
  { envItensVazios with produtosPesquisa := fun _ => respPaginaVazia }

/-- A listing response carrying the end-of-pagination code 22 and an empty
record list — the claim's empty first page scenario. -/
def respFimPaginacao : JVal :=
  .dict [("retorno", .dict [("status", .str "Erro"),
    ("codigo_erro", .str "22"), ("produtos", .lst [])])]

/-- Environment whose every products page is `respFimPaginacao`. -/
def envFimPagina1 : Ambiente :=
  { envItensVazios with produtosPesquisa := fun _ => respFimPaginacao }

/-- Page 1 of the commit-failure scenario: one listed product. -/
def respPaginaUmProduto : JVal :=
  .dict [("retorno", .dict [("produtos", .lst [.dict [("id", .num 1)]])])]

/-- A transport-error response. -/
def respErroRequisicao : JVal :=
  .dict [("erro", .str "Falha na requisicao apos 3 tentativas")]

/-- Detail of product 1. -/
def respDetalheProduto1 : JVal :=
  .dict [("retorno", .dict [("produto", .dict [("id", .num 1), ("nome", .str "P")])])]

/-- Environment in which page 1 lists one product whose page-level commit
fails, and page 2 returns a transport error. -/
def envCommitFalha : Ambiente :=
  { envItensVazios with
    produtosPesquisa := fun pagina =>
      if pagina = 1 then respPaginaUmProduto else respErroRequisicao
    produtoObter := fun _ => respDetalheProduto1
    commitPaginaProdutos := fun pagina => pagina != 1 }

/-- An environment whose orders listing signals end-of-pagination on page 1. -/
def envFimPedidos : Ambiente :=
  { envItensVazios with pedidosPesquisa := fun _ => respFimPaginacao }

/-- A credential-failure response ("token invalido") as the Tiny API reports
it. -/
def respCredencialInvalida : JVal :=
  .dict [("retorno", .dict [("status", .str "Erro"), ("codigo_erro", .str "3"),
    ("erros", .lst [.dict [("erro", .str "A sessao do token expirou ou token invalido")]])])]

/-- An empty contacts response. -/
def respContatosVazios : JVal := .dict [("retorno", .dict [("contatos", .lst [])])]

/-- Environment in which the categories call fails with an invalid-token
error while every later stage succeeds immediately. -/
def envCredencial : Ambiente :=
  { envItensVazios with
    categoriasResp := respCredencialInvalida
    produtosPesquisa := fun _ => respFimPaginacao
    contatosResp := respContatosVazios
    pedidosPesquisa := fun _ => respFimPaginacao }

/-- Environment in which, additionally, every products listing page is a
transport error, so the products stage fails. -/
def envFalhaProdutos : Ambiente :=
  { envCredencial with produtosPesquisa := fun _ => respErroRequisicao }

/-- Environment whose incremental products endpoint answers with the
invalid-token error for every timestamp. -/
def envAlteracoesCredencial : Ambiente :=
  { envItensVazios with produtosAlteracoes := fun _ => respCredencialInvalida }

mutual
theorem JVal.jeq_refl : ∀ v : JVal, v.jeq v = true
  | .nul => rfl
  | .num a => by simp [JVal.jeq]
  | .str a => by simp [JVal.jeq]
  | .lst xs => by simp [JVal.jeq, JVal.jeqLista_refl xs]
  | .dict xs => by simp [JVal.jeq, JVal.jeqObjeto_refl xs]
theorem JVal.jeqLista_refl : ∀ xs : List JVal, JVal.jeqLista xs xs = true
  | [] => rfl
  | a :: as => by simp [JVal.jeqLista, JVal.jeq_refl a, JVal.jeqLista_refl as]
theorem JVal.jeqObjeto_refl : ∀ xs : List (String × JVal),
    JVal.jeqObjeto xs xs = true
  | [] => rfl
  | (k, a) :: as => by
      simp [JVal.jeqObjeto, JVal.jeq_refl a, JVal.jeqObjeto_refl as]
end

theorem lerProgresso_salvar_mesmo (prog : Progresso) (chave valor : String) :
    lerProgresso (salvarProgresso prog chave valor) chave = some valor := by
  induction prog with
  | nil => simp [salvarProgresso, lerProgresso]
  | cons p resto ih =>
    obtain ⟨k, v⟩ := p
    by_cases hk : k = chave
    · simp [salvarProgresso, hk, lerProgresso]
    · simp [salvarProgresso, hk, lerProgresso, ih]

theorem lerProgresso_salvar_outro (prog : Progresso) (chave valor chave2 : String)
    (h : chave ≠ chave2) :
    lerProgresso (salvarProgresso prog chave valor) chave2 = lerProgresso prog chave2 := by
  induction prog with
  | nil => simp [salvarProgresso, lerProgresso, h]
  | cons p resto ih =>
    obtain ⟨k, v⟩ := p
    by_cases hk : k = chave
    · subst hk
      simp [salvarProgresso, lerProgresso, h, Ne.symm h]
    · by_cases hk2 : k = chave2 <;>
        simp [salvarProgresso, hk, lerProgresso, hk2, Ne.symm h, ih]

theorem upsertTabela_idem {α : Type} (t : List (JVal × α)) (chave : JVal) (a : α) :
    upsertTabela (upsertTabela t chave a) chave a = upsertTabela t chave a := by
  induction t with
  | nil => simp [upsertTabela, JVal.jeq_refl]
  | cons p resto ih =>
    obtain ⟨k, b⟩ := p
    by_cases hk : k.jeq chave = true
    · simp [upsertTabela, hk, JVal.jeq_refl]
    · simp [upsertTabela, hk, ih]

theorem procurarTabela_upsert {α : Type} (t : List (JVal × α)) (chave : JVal) (a : α) :
    procurarTabela (upsertTabela t chave a) chave = some a := by
  induction t with
  | nil => simp [upsertTabela, procurarTabela, JVal.jeq_refl]
  | cons p resto ih =>
    obtain ⟨k, b⟩ := p
    by_cases hk : k.jeq chave = true
    · simp [upsertTabela, hk, procurarTabela, JVal.jeq_refl]
    · simp [upsertTabela, hk, procurarTabela, ih]

theorem countP_upsertTabela {α : Type} (chave : JVal) (a : α) :
    ∀ t : List (JVal × α), t.countP (fun p => p.1.jeq chave) ≤ 1 →
      (upsertTabela t chave a).countP (fun p => p.1.jeq chave) = 1
  | [], _ => by simp [upsertTabela, JVal.jeq_refl]
  | (k, b) :: resto, h => by
    by_cases hk : k.jeq chave = true
    · have h0 : resto.countP (fun p : JVal × α => p.1.jeq chave) = 0 := by
        rw [List.countP_cons] at h
        simpa [hk] using h
      simp [upsertTabela, hk, List.countP_cons, JVal.jeq_refl, h0]
    · have h1 : resto.countP (fun p : JVal × α => p.1.jeq chave) ≤ 1 := by
        rw [List.countP_cons] at h
        omega
      have h2 := countP_upsertTabela chave a resto h1
      simp [upsertTabela, hk, List.countP_cons, h2]

theorem contaChave_upsert {α : Type} (t : List (JVal × α)) (chave : JVal) (a : α)
    (h : contaChave t chave ≤ 1) :
    contaChave (upsertTabela t chave a) chave = 1 :=
  countP_upsertTabela chave a t h

/-! ## Claims

Each claim of the specification is settled below: shared helper lemmas first,
then per claim its counterexample (when the claim fails on the code), the
(possibly amended) theorem, and a witness instantiating every hypothesis. -/

/-! ### C10 — empty incoming item list leaves stored line items untouched -/

/-- C10: for every re-sync of an order whose fetched detail carries an empty
(or missing, or non-list) item list, the order transaction upserts the order
row and leaves the `itens_pedido` table unchanged — the delete-then-reinsert
step runs only for a non-empty incoming list.  On a failed commit the whole
transaction rolls back. -/
theorem C10_itens_preservados (db : DB) (idPedido pedido : JVal) (commitOk : Bool)
    (h : itensDe pedido = []) :
    gravarPedidoTransacao db idPedido pedido commitOk =
      (commitOk,
        if commitOk then
          { db with pedidos := upsertTabela db.pedidos idPedido (pedidoRowDe pedido) }
        else db) ∧
    (gravarPedidoTransacao db idPedido pedido commitOk).2.itensPedido = db.itensPedido := by
  unfold gravarPedidoTransacao
  rw [h]
  cases commitOk <;> simp

/-- Witness for `C10_itens_preservados`: re-syncing order 1 of `dbTresItens`
with an empty incoming item list succeeds and leaves all three stored item
rows in place. -/
theorem C10_witness :
    itensDe pedidoSemItens = [] ∧
    (gravarPedidoTransacao dbTresItens (.num 1) pedidoSemItens true).2.itensPedido
      = dbTresItens.itensPedido ∧
    contaItensPedido (gravarPedidoTransacao dbTresItens (.num 1) pedidoSemItens true).2
      (.num 1) = 3 := by
  refine ⟨rfl, (C10_itens_preservados dbTresItens (.num 1) pedidoSemItens true rfl).2, ?_⟩
  decide

/-! ### C4 — line-item replace semantics -/

/-- Counterexample to C4 as stated: re-syncing order 1 (which holds 3 stored
line items) with a fetched detail whose item list is empty succeeds, yet the
3 old rows survive — the claim's "existing line items are deleted and the
incoming items reinserted" would leave 0 rows for this order. -/
theorem C4_contraexemplo_itens_vazios :
    (buscarEGravarDetalhesPedido envItensVazios dbTresItens (.num 1)).1 = true ∧
    contaItensPedido (buscarEGravarDetalhesPedido envItensVazios dbTresItens (.num 1)).2
      (.num 1) = 3 ∧
    contaItensPedido (buscarEGravarDetalhesPedido envItensVazios dbTresItens (.num 1)).2
      (.num 1) ≠ 0 := by
  refine ⟨by decide, by decide, by decide⟩

/-- C4 (amended: the replacement is performed only when the incoming item
list is non-empty — an empty list leaves the old rows, see
`C4_contraexemplo_itens_vazios` and C10): for every re-sync of an order whose
fetched detail carries a non-empty item list, the old line items of that
order are deleted and the incoming dict items reinserted inside the same
transaction as the order upsert; afterwards the rows stored for that order id
are exactly the incoming ones (so a list shrunk from 3 items to 1 leaves
exactly 1 row), and a failure anywhere in the transaction (modelled by the
commit oracle) leaves the fully-old state — never a mix. -/
theorem C4_substituicao_itens (db : DB) (idPedido pedido : JVal) (commitOk : Bool)
    (h : itensDe pedido ≠ []) :
    gravarPedidoTransacao db idPedido pedido commitOk =
      (commitOk,
        if commitOk then
          { db with
            pedidos := upsertTabela db.pedidos idPedido (pedidoRowDe pedido)
            itensPedido :=
              db.itensPedido.filter (fun r => !(r.idPedido.jeq idPedido))
                ++ ((itensDe pedido).filter ehDict).map (itemRowDe idPedido) }
        else db) ∧
    contaItensPedido
      { db with
        pedidos := upsertTabela db.pedidos idPedido (pedidoRowDe pedido)
        itensPedido :=
          db.itensPedido.filter (fun r => !(r.idPedido.jeq idPedido))
            ++ ((itensDe pedido).filter ehDict).map (itemRowDe idPedido) }
      idPedido = ((itensDe pedido).filter ehDict).length ∧
    ((gravarPedidoTransacao db idPedido pedido commitOk).2 = db ∨
      (gravarPedidoTransacao db idPedido pedido commitOk).2 =
        { db with
          pedidos := upsertTabela db.pedidos idPedido (pedidoRowDe pedido)
          itensPedido :=
            db.itensPedido.filter (fun r => !(r.idPedido.jeq idPedido))
              ++ ((itensDe pedido).filter ehDict).map (itemRowDe idPedido) }) := by
  have hne : (itensDe pedido).isEmpty = false := by
    cases hc : itensDe pedido with
    | nil => exact absurd hc h
    | cons a l => rfl
  refine ⟨?_, ?_, ?_⟩
  · simp only [gravarPedidoTransacao, hne]
    cases commitOk <;> simp
  · unfold contaItensPedido
    rw [List.countP_append]
    have hfiltro :
        (db.itensPedido.filter (fun r => !(r.idPedido.jeq idPedido))).countP
          (fun r => r.idPedido.jeq idPedido) = 0 := by
      rw [List.countP_eq_zero]
      intro r hr
      rw [List.mem_filter] at hr
      simp only [Bool.not_eq_true'] at hr
      simp [hr.2]
    have hmapa :
        (((itensDe pedido).filter ehDict).map (itemRowDe idPedido)).countP
          (fun r => r.idPedido.jeq idPedido)
          = ((itensDe pedido).filter ehDict).length := by
      rw [List.countP_map]
      apply List.countP_eq_length.mpr
      intro it _
      simp [itemRowDe, JVal.jeq_refl]
    rw [hfiltro, hmapa]
    simp
  · simp only [gravarPedidoTransacao, hne]
    cases commitOk <;> simp

/-- Witness for `C4_substituicao_itens`: re-syncing order 1 of `dbTresItens`
(3 stored items) with a single incoming item leaves exactly 1 item row for
order 1 — never 3 or 4. -/
theorem C4_witness :
    itensDe pedidoUmItem ≠ [] ∧
    contaItensPedido (gravarPedidoTransacao dbTresItens (.num 1) pedidoUmItem true).2
      (.num 1) = 1 := by
  have h : itensDe pedidoUmItem ≠ [] := by
    intro hc
    exact List.cons_ne_nil _ _ hc
  have hmain := C4_substituicao_itens dbTresItens (.num 1) pedidoUmItem true h
  refine ⟨h, ?_⟩
  have h2 := congrArg Prod.snd hmain.1
  simp only [if_true] at h2
  rw [h2, hmain.2.1]
  decide

/-! ### C9 — line totals -/

/-- Counterexample to C9 as stated: syncing an order whose item carries
quantity 2, unit price 5 and provider total 7 stores line total 7 — not the
claimed quantity × unit_price = 10 (and not null: the column always receives
a number). -/
theorem C9_contraexemplo_total :
    (buscarEGravarDetalhesPedido envTotalDivergente dbVazio (.num 5)).1 = true ∧
    (buscarEGravarDetalhesPedido envTotalDivergente dbVazio (.num 5)).2.itensPedido.map
      (fun r => (r.quantidadeItem, r.valorUnitarioItem, r.valorTotalItem)) = [(2, 5, 7)] ∧
    (7 : Rat) ≠ 2 * 5 := by
  refine ⟨by decide, by decide, by norm_num⟩

/-- C9 (amended: the stored line total is the provider's `valor_total` field
converted to a number — defaulting to 0 when the field is absent or falsy, or
when any of the three numeric fields of the item fails to convert — never a
derived quantity × unit_price product and never null): whenever the three
numeric fields of an item convert to the rationals `q`, `p` and `t`, the row
written stores quantity `q`, unit price `p` and line total `t`, with no
relation imposed between `t` and `q * p`. -/
theorem C9_total_item (idPedido item : JVal) (q p t : Rat)
    (hq : paraFloat (getCampo item "quantidade" (.num 0)) = some q)
    (hp : paraFloat (getCampo item "valor_unitario" (.num 0)) = some p)
    (ht : paraFloat (getCampo item "valor_total" (.num 0)) = some t) :
    (itemRowDe idPedido item).quantidadeItem = q ∧
    (itemRowDe idPedido item).valorUnitarioItem = p ∧
    (itemRowDe idPedido item).valorTotalItem = t := by
  simp only [itemRowDe, converterTripla, hq, hp, ht]
  exact ⟨trivial, trivial, trivial⟩

/-- Witness for `C9_total_item` at `itemTotalDivergente`: the stored total is
the provider's 7. -/
theorem C9_witness :
    paraFloat (getCampo itemTotalDivergente "quantidade" (.num 0)) = some 2 ∧
    paraFloat (getCampo itemTotalDivergente "valor_total" (.num 0)) = some 7 ∧
    (itemRowDe (.num 5) itemTotalDivergente).valorTotalItem = 7 := by
  refine ⟨by decide, by decide,
    (C9_total_item (.num 5) itemTotalDivergente 2 5 7 (by decide) (by decide) (by decide)).2.2⟩

/-! ### C6 — skip records missing mandatory identifying fields -/

/-- Counterexample to C6 as stated: a product detail record with an id but no
name is not skipped — it is upserted with an empty-string name and therefore
does appear in the destination store. -/
theorem C6_contraexemplo_sem_nome :
    (buscarEGravarDetalhesProduto envProdutoSemNome dbVazio (.num 7)).1 = true ∧
    contaChave (buscarEGravarDetalhesProduto envProdutoSemNome dbVazio (.num 7)).2.produtos
      (.num 7) = 1 ∧
    ((buscarEGravarDetalhesProduto envProdutoSemNome dbVazio (.num 7)).2.produtos.map
      (fun p => p.2.nomeProduto)).map jStr = [""] := by
  refine ⟨by decide, by decide, by decide⟩

/-- C6 (amended: category and seller records missing `id` or `nome`, and
product/order list records missing `id`, are skipped without raising, do not
reach the destination, and processing continues with the remaining records;
but a product DETAIL record without a name is not skipped — it is upserted
with an empty-string name, see `C6_contraexemplo_sem_nome`): the skip
behaviour of the per-record loops, plus the product-detail exception. -/
theorem C6_pular_incompletos :
    (∀ (campos : List (String × JVal)) (resto : List JVal)
        (t : List (JVal × CategoriaRow)),
      (jFalsy ((procurarAssoc campos "id").getD .nul)
        || jFalsy ((procurarAssoc campos "nome").getD .nul)) = true →
      processarCategorias (.dict campos :: resto) t = processarCategorias resto t) ∧
    (∀ (c : JVal) (resto : List JVal) (t : List (JVal × CategoriaRow)),
      ehDict c = false →
      processarCategorias (c :: resto) t = processarCategorias resto t) ∧
    (∀ (env : Ambiente) (item : JVal) (resto : List JVal) (db : DB) (proc err : Nat),
      (match getCampo? item "id" with
        | some v => jFalsy v
        | none => true) = true →
      processarListaProdutos env (item :: resto) db proc err
        = processarListaProdutos env resto db proc err) ∧
    (∀ (env : Ambiente) (item : JVal) (resto : List JVal) (db : DB) (proc err : Nat),
      (match getCampo? item "id" with
        | some v => jFalsy v
        | none => true) = true →
      processarListaPedidos env (item :: resto) db proc err
        = processarListaPedidos env resto db proc err) ∧
    (∀ (v : JVal) (resto : List JVal) (t : List (JVal × VendedorRow)),
      (jFalsy (getCampo v "id" .nul) || jFalsy (getCampo v "nome" .nul)) = true →
      processarVendedores (v :: resto) t = processarVendedores resto t) ∧
    (∀ (env : Ambiente) (db : DB) (idProduto produto : JVal),
      registroDetalhe (env.produtoObter idProduto) "produto" = some produto →
      getCampo? produto "nome" = none →
      buscarEGravarDetalhesProduto env db idProduto
        = (true,
          { db with produtos := upsertTabela db.produtos idProduto (produtoRowDe produto) }) ∧
      (produtoRowDe produto).nomeProduto = .str "") := by
  refine ⟨?_, ?_, ?_, ?_, ?_, ?_⟩
  · intro campos resto t h
    simp only [processarCategorias, h]
    rfl
  · intro c resto t h
    cases c <;> simp_all [processarCategorias, ehDict]
  · intro env item resto db proc err h
    cases hid : getCampo? item "id" with
    | none => simp [processarListaProdutos, hid]
    | some v =>
      rw [hid] at h
      have hv : jFalsy v = true := h
      simp [processarListaProdutos, hid, hv]
  · intro env item resto db proc err h
    cases hid : getCampo? item "id" with
    | none => simp [processarListaPedidos, hid]
    | some v =>
      rw [hid] at h
      have hv : jFalsy v = true := h
      simp [processarListaPedidos, hid, hv]
  · intro v resto t h
    simp only [processarVendedores, h]
    rfl
  · intro env db idProduto produto hreg hnome
    constructor
    · simp [buscarEGravarDetalhesProduto, hreg]
    · simp [produtoRowDe, getCampo, hnome]

/-- Witness for `C6_pular_incompletos`: a category without a name is skipped
(the table stays empty) while its well-formed successor is still processed;
product and order list records without an id are skipped; a seller without a
name is skipped; and the nameless product detail of `envProdutoSemNome` is
written with an empty name. -/
theorem C6_witness :
    processarCategorias
      [.dict [("id", .num 3)], .dict [("id", .num 4), ("nome", .str "ok")]] []
      = processarCategorias [.dict [("id", .num 4), ("nome", .str "ok")]] [] ∧
    processarListaProdutos envItensVazios [.dict [("nome", .str "sem id")]] dbVazio 0 0
      = processarListaProdutos envItensVazios [] dbVazio 0 0 ∧
    processarListaPedidos envItensVazios [.dict [("nome", .str "sem id")]] dbVazio 0 0
      = processarListaPedidos envItensVazios [] dbVazio 0 0 ∧
    processarVendedores [.dict [("id", .num 9)]] []
      = processarVendedores [] [] ∧
    (produtoRowDe (.dict [("id", .num 7), ("preco", .str "12.5")])).nomeProduto
      = .str "" := by
  exact ⟨C6_pular_incompletos.1 _ _ _ (by decide),
    C6_pular_incompletos.2.2.1 envItensVazios _ _ _ _ _ (by decide),
    C6_pular_incompletos.2.2.2.1 envItensVazios _ _ _ _ _ (by decide),
    C6_pular_incompletos.2.2.2.2.1 _ _ _ (by decide),
    (C6_pular_incompletos.2.2.2.2.2 envProdutoSemNome dbVazio (.num 7)
      (.dict [("id", .num 7), ("preco", .str "12.5")]) rfl rfl).2⟩

/-! ### C5 — upsert idempotence -/

/-- C5: applying the same normalized record twice through the upsert writer
leaves the destination exactly as applying it once.  Stated (a) end-to-end
for the product detail writer (same fetched record, same key, same run
outcome and same database), (b) for the shared conflict-update statement
`upsertTabela` at every entity row type, and (c) with the uniqueness/
overwrite guarantee: under the primary-key invariant (at most one row per
key) the result holds exactly one row for the id, whose every non-key field
is the incoming value. -/
theorem C5_idempotencia_upsert :
    (∀ (env : Ambiente) (db : DB) (idProduto : JVal),
      buscarEGravarDetalhesProduto env
        (buscarEGravarDetalhesProduto env db idProduto).2 idProduto
        = buscarEGravarDetalhesProduto env db idProduto) ∧
    (∀ (α : Type) (t : List (JVal × α)) (chave : JVal) (a : α),
      upsertTabela (upsertTabela t chave a) chave a = upsertTabela t chave a) ∧
    (∀ (α : Type) (t : List (JVal × α)) (chave : JVal) (a : α),
      contaChave t chave ≤ 1 →
      contaChave (upsertTabela t chave a) chave = 1 ∧
      procurarTabela (upsertTabela t chave a) chave = some a) := by
  refine ⟨?_, ?_, ?_⟩
  · intro env db idProduto
    cases h : registroDetalhe (env.produtoObter idProduto) "produto" with
    | none => simp [buscarEGravarDetalhesProduto, h]
    | some produto =>
      simp only [buscarEGravarDetalhesProduto, h]
      rw [upsertTabela_idem]
  · intro α t chave a
    exact upsertTabela_idem t chave a
  · intro α t chave a h
    exact ⟨contaChave_upsert t chave a h, procurarTabela_upsert t chave a⟩

/-- Witness for `C5_idempotencia_upsert`: writing the concrete product detail
of `envProdutoSemNome` twice equals writing it once, and a category upsert
into an empty table yields exactly one row holding the incoming values. -/
theorem C5_witness :
    buscarEGravarDetalhesProduto envProdutoSemNome
      (buscarEGravarDetalhesProduto envProdutoSemNome dbVazio (.num 7)).2 (.num 7)
      = buscarEGravarDetalhesProduto envProdutoSemNome dbVazio (.num 7) ∧
    contaChave (upsertTabela ([] : List (JVal × CategoriaRow)) (.num 3)
      ⟨.str "cat", .nul⟩) (.num 3) = 1 := by
  exact ⟨C5_idempotencia_upsert.1 envProdutoSemNome dbVazio (.num 7),
    (C5_idempotencia_upsert.2.2 CategoriaRow [] (.num 3) ⟨.str "cat", .nul⟩ (by decide)).1⟩

/-! ### C3 — backfill resumes at the stored page cursor -/

/-- The first page a products backfill run requests is always the resume page
computed from the progress store. -/
theorem cargaProdutos_primeira_pagina (env : Ambiente) (agora : String)
    (prog : Progresso) (db : DB) :
    (buscarEGravarProdutosCargaCompleta env agora prog db).trace.head?
      = some (paginaInicialProdutos prog) := rfl

/-- C3: with a digit-string page cursor `s` and no timestamp stored, a
products run dispatches to the backfill and its first fetched page is
`int(s)`, not 1; with no valid cursor (absent, empty or non-digits) the
backfill starts at page 1. -/
theorem C3_retomada_pagina :
    (∀ (prog : Progresso) (s : String),
      lerProgresso prog CHAVE_PAGINA_PRODUTOS = some s → ehDigitos s = true →
      lerProgresso prog CHAVE_TIMESTAMP_PRODUTOS = none →
      paginaInicialProdutos prog = strToNat s ∧
      ∀ (env : Ambiente) (agora : String) (db : DB),
        buscarEGravarProdutos env agora prog db
          = buscarEGravarProdutosCargaCompleta env agora prog db ∧
        (buscarEGravarProdutos env agora prog db).trace.head? = some (strToNat s)) ∧
    (∀ prog : Progresso,
      (∀ s, lerProgresso prog CHAVE_PAGINA_PRODUTOS = some s → ehDigitos s = false) →
      paginaInicialProdutos prog = 1 ∧
      ∀ (env : Ambiente) (agora : String) (db : DB),
        (buscarEGravarProdutosCargaCompleta env agora prog db).trace.head? = some 1) := by
  constructor
  · intro prog s hs hdig hts
    have hpag : paginaInicialProdutos prog = strToNat s := by
      unfold paginaInicialProdutos
      rw [hs]
      simp [hdig]
    refine ⟨hpag, ?_⟩
    intro env agora db
    have hdisp : buscarEGravarProdutos env agora prog db
        = buscarEGravarProdutosCargaCompleta env agora prog db := by
      unfold buscarEGravarProdutos
      rw [hts]
    refine ⟨hdisp, ?_⟩
    rw [hdisp, cargaProdutos_primeira_pagina, hpag]
  · intro prog h
    have hpag : paginaInicialProdutos prog = 1 := by
      unfold paginaInicialProdutos
      cases hs : lerProgresso prog CHAVE_PAGINA_PRODUTOS with
      | none => rfl
      | some s => simp [h s hs]
    exact ⟨hpag, fun env agora db => by rw [cargaProdutos_primeira_pagina, hpag]⟩

/-- Witness for `C3_retomada_pagina`: cursor "5" and no timestamp resumes at
page 5; an empty progress store starts at page 1. -/
theorem C3_witness :
    paginaInicialProdutos [(CHAVE_PAGINA_PRODUTOS, "5")] = 5 ∧
    (buscarEGravarProdutos envItensVazios "T" [(CHAVE_PAGINA_PRODUTOS, "5")] dbVazio).trace.head?
      = some 5 ∧
    paginaInicialProdutos [] = 1 := by
  have h := C3_retomada_pagina.1 [(CHAVE_PAGINA_PRODUTOS, "5")] "5"
    (by decide) (by decide) (by decide)
  refine ⟨h.1.trans (by decide), ?_, ?_⟩
  · exact ((h.2 envItensVazios "T" dbVazio).2).trans (by decide)
  · exact (C3_retomada_pagina.2 [] (fun s hs => nomatch hs)).1

/-! ### C1 — pagination-termination detection -/

/-- Counterexample to C1 as stated: a backfill over pages that return an
empty record list with NO end code never terminates the backfill — the run
walks all 30 pages of its batch budget (trace 1..30), advances the checkpoint
to page 31, records no timestamp, and ends with work remaining.  The claim
required an empty record list alone to end the backfill with the timestamp
set. -/
theorem C1_contraexemplo_pagina_vazia :
    (buscarEGravarProdutosCargaCompleta envPaginasVazias "2025-05-20 10:00:00"
      [] dbVazio).sucesso = true ∧
    (buscarEGravarProdutosCargaCompleta envPaginasVazias "2025-05-20 10:00:00"
      [] dbVazio).restantes = true ∧
    lerProgresso (buscarEGravarProdutosCargaCompleta envPaginasVazias "2025-05-20 10:00:00"
      [] dbVazio).progresso CHAVE_PAGINA_PRODUTOS = some "31" ∧
    lerProgresso (buscarEGravarProdutosCargaCompleta envPaginasVazias "2025-05-20 10:00:00"
      [] dbVazio).progresso CHAVE_TIMESTAMP_PRODUTOS = none ∧
    (buscarEGravarProdutosCargaCompleta envPaginasVazias "2025-05-20 10:00:00"
      [] dbVazio).processados = 0 := by
  refine ⟨by decide, by decide, by decide, by decide, by decide⟩

/-- C1 (amended: pagination termination is detected ONLY by the provider's
explicit end-of-pagination error code (22 or 23); an empty record list alone
does not end the backfill — the run advances past it, see
`C1_contraexemplo_pagina_vazia`.  The empty-first-page scenario holds when
the response carries the end code: the run completes successfully with 0
records processed and an unchanged database, records the sync timestamp
"now" and clears the page cursor):
(1) the termination test is exactly the extracted-code membership check, and
(2) an error-free response carrying the end signal at the resume page makes
the whole backfill return success / no-work-remaining immediately with the
timestamp written and the cursor cleared. -/
theorem C1_terminacao_apenas_codigo :
    (∀ resposta : JVal,
      verificarFimPaginacao resposta
        = codigoEm (extrairCodigoErroApi resposta) [22, 23]) ∧
    (∀ (env : Ambiente) (agora : String) (prog : Progresso) (db : DB),
      getCampo? (env.produtosPesquisa (paginaInicialProdutos prog)) "erro" = none →
      verificarFimPaginacao (env.produtosPesquisa (paginaInicialProdutos prog)) = true →
      buscarEGravarProdutosCargaCompleta env agora prog db =
        ⟨true, false,
          salvarProgresso (salvarProgresso prog CHAVE_TIMESTAMP_PRODUTOS agora)
            CHAVE_PAGINA_PRODUTOS "",
          db, 0, [paginaInicialProdutos prog]⟩) := by
  refine ⟨fun _ => rfl, ?_⟩
  intro env agora prog db herro hfim
  have h0 : buscarEGravarProdutosCargaCompleta env agora prog db
      = cargaProdutosInner env agora (cargaProdutosOuter env agora 9) (2+1) prog db
          (paginaInicialProdutos prog) 0 := rfl
  rw [h0]
  simp [cargaProdutosInner, comPagina, herro, hfim]

/-- Witness for `C1_terminacao_apenas_codigo`: the empty first page of
`envFimPagina1` carries code 22; the run completes at once with 0 records,
timestamp "now" and a cleared cursor. -/
theorem C1_witness :
    getCampo? (envFimPagina1.produtosPesquisa (paginaInicialProdutos [])) "erro" = none ∧
    verificarFimPaginacao (envFimPagina1.produtosPesquisa (paginaInicialProdutos [])) = true ∧
    buscarEGravarProdutosCargaCompleta envFimPagina1 "2025-05-20 10:00:00" [] dbVazio =
      ⟨true, false,
        salvarProgresso (salvarProgresso [] CHAVE_TIMESTAMP_PRODUTOS "2025-05-20 10:00:00")
          CHAVE_PAGINA_PRODUTOS "",
        dbVazio, 0, [paginaInicialProdutos []]⟩ := by
  exact ⟨rfl, by decide,
    C1_terminacao_apenas_codigo.2 envFimPagina1 "2025-05-20 10:00:00" [] dbVazio rfl (by decide)⟩

/-! ### C8 — checkpoint on page-level and transaction-level failures -/

/-- Counterexample to C8 as stated: the page-level commit of page 1 fails,
yet the run does not return with the checkpoint pointing at page 1 — it
advances, saves page 2 as the checkpoint, and fetches page 2 (trace `[1, 2]`).
The next run would therefore start at page 2, skipping the page whose commit
failed, where the claim requires it to retry page 1. -/
theorem C8_contraexemplo_commit :
    envCommitFalha.commitPaginaProdutos 1 = false ∧
    (buscarEGravarProdutosCargaCompleta envCommitFalha "2025-05-20 10:00:00"
      [] dbVazio).trace = [1, 2] ∧
    lerProgresso (buscarEGravarProdutosCargaCompleta envCommitFalha "2025-05-20 10:00:00"
      [] dbVazio).progresso CHAVE_PAGINA_PRODUTOS = some "2" ∧
    lerProgresso (buscarEGravarProdutosCargaCompleta envCommitFalha "2025-05-20 10:00:00"
      [] dbVazio).progresso CHAVE_PAGINA_PRODUTOS ≠ some "1" := by
  refine ⟨by decide, by decide, by decide, by decide⟩

/-- C8 (amended: a transport error, a malformed response, or a `TypeError`
while reading a page saves the CURRENT page as the checkpoint before
returning, so the next run retries that page; but a failed page-level commit
does not return — it is rolled back (a no-op, as each product detail already
committed individually) and the loop advances with checkpoint `pagina + 1`,
skipping the page, see `C8_contraexemplo_commit`): the four failure branches
of one backfill page step. -/
theorem C8_checkpoint_em_falha (env : Ambiente) (agora : String)
    (cont : Progresso → DB → Nat → Nat → ResultadoProdutos)
    (p : Nat) (prog : Progresso) (db : DB) (pagina proc : Nat) :
    ((getCampo? (env.produtosPesquisa pagina) "erro").isSome = true →
      cargaProdutosInner env agora cont (p + 1) prog db pagina proc =
        ⟨false, true, salvarProgresso prog CHAVE_PAGINA_PRODUTOS (natParaStr pagina),
          db, proc, [pagina]⟩) ∧
    ((getCampo? (env.produtosPesquisa pagina) "erro").isSome = false →
      verificarFimPaginacao (env.produtosPesquisa pagina) = false →
      getCampo? (env.produtosPesquisa pagina) "retorno" = none →
      cargaProdutosInner env agora cont (p + 1) prog db pagina proc =
        ⟨false, true, salvarProgresso prog CHAVE_PAGINA_PRODUTOS (natParaStr pagina),
          db, proc, [pagina]⟩) ∧
    (∀ retorno : JVal,
      (getCampo? (env.produtosPesquisa pagina) "erro").isSome = false →
      verificarFimPaginacao (env.produtosPesquisa pagina) = false →
      getCampo? (env.produtosPesquisa pagina) "retorno" = some retorno →
      jFalsy (listaDe retorno "produtos") = false →
      iteravel (listaDe retorno "produtos") = none →
      cargaProdutosInner env agora cont (p + 1) prog db pagina proc =
        ⟨false, true, salvarProgresso prog CHAVE_PAGINA_PRODUTOS (natParaStr pagina),
          db, proc, [pagina]⟩) ∧
    (∀ (retorno : JVal) (registros : List JVal) (db2 : DB) (proc2 err2 : Nat),
      (getCampo? (env.produtosPesquisa pagina) "erro").isSome = false →
      verificarFimPaginacao (env.produtosPesquisa pagina) = false →
      getCampo? (env.produtosPesquisa pagina) "retorno" = some retorno →
      jFalsy (listaDe retorno "produtos") = false →
      iteravel (listaDe retorno "produtos") = some registros →
      processarListaProdutos env registros db proc 0 = (db2, proc2, err2) →
      env.commitPaginaProdutos pagina = false →
      cargaProdutosInner env agora cont (p + 1) prog db pagina proc =
        comPagina pagina (cargaProdutosInner env agora cont p
          (salvarProgresso prog CHAVE_PAGINA_PRODUTOS (natParaStr (pagina + 1)))
          db2 (pagina + 1) proc2)) := by
  refine ⟨?_, ?_, ?_, ?_⟩
  · intro h1
    simp [cargaProdutosInner, comPagina, h1]
  · intro h1 h2 h3
    simp [cargaProdutosInner, comPagina, h1, h2, h3]
  · intro retorno h1 h2 h3 h4 h5
    simp [cargaProdutosInner, comPagina, h1, h2, h3, h4, h5]
  · intro retorno registros db2 proc2 err2 h1 h2 h3 h4 h5 h6 h7
    simp [cargaProdutosInner, comPagina, h1, h2, h3, h4, h5, h6, h7]

/-- Witness for `C8_checkpoint_em_falha`: page 2 of `envCommitFalha` is a
transport error, and the step at page 2 returns with checkpoint "2"; the
commit of page 1 fails and the run's trace nevertheless reaches page 2. -/
theorem C8_witness :
    (getCampo? (envCommitFalha.produtosPesquisa 2) "erro").isSome = true ∧
    cargaProdutosInner envCommitFalha "T" (cargaProdutosOuter envCommitFalha "T" 9)
      (2 + 1) [] dbVazio 2 0 =
      ⟨false, true, salvarProgresso [] CHAVE_PAGINA_PRODUTOS (natParaStr 2),
        dbVazio, 0, [2]⟩ ∧
    envCommitFalha.commitPaginaProdutos 1 = false ∧
    (cargaProdutosInner envCommitFalha "T" (cargaProdutosOuter envCommitFalha "T" 9)
      (2 + 1) [] dbVazio 1 0).trace = [1, 2] := by
  refine ⟨by decide, ?_, by decide, by decide⟩
  exact (C8_checkpoint_em_falha envCommitFalha "T" (cargaProdutosOuter envCommitFalha "T" 9)
    2 [] dbVazio 2 0).1 (by decide)

/-! ### C2 — backfill-to-incremental mode transition -/

/-- Invariant of the products page loop: when a backfill call returns success
with no work remaining (which only the end-of-pagination branch produces),
the sync timestamp has been recorded as "now" and the page cursor cleared. -/
theorem cargaProdutosInner_conclusao (env : Ambiente) (agora : String)
    (cont : Progresso → DB → Nat → Nat → ResultadoProdutos)
    (hcont : ∀ (prog : Progresso) (db : DB) (pagina proc : Nat),
      (cont prog db pagina proc).sucesso = true →
      (cont prog db pagina proc).restantes = false →
      lerProgresso (cont prog db pagina proc).progresso CHAVE_TIMESTAMP_PRODUTOS
        = some agora ∧
      lerProgresso (cont prog db pagina proc).progresso CHAVE_PAGINA_PRODUTOS
        = some "") :
    ∀ (paginasRest : Nat) (prog : Progresso) (db : DB) (pagina proc : Nat),
      (cargaProdutosInner env agora cont paginasRest prog db pagina proc).sucesso = true →
      (cargaProdutosInner env agora cont paginasRest prog db pagina proc).restantes = false →
      lerProgresso (cargaProdutosInner env agora cont paginasRest prog db pagina proc).progresso
        CHAVE_TIMESTAMP_PRODUTOS = some agora ∧
      lerProgresso (cargaProdutosInner env agora cont paginasRest prog db pagina proc).progresso
        CHAVE_PAGINA_PRODUTOS = some ""
  | 0, prog, db, pagina, proc => hcont prog db pagina proc
  | (p + 1), prog, db, pagina, proc => by
    by_cases h1 : (getCampo? (env.produtosPesquisa pagina) "erro").isSome = true
    · simp [cargaProdutosInner, comPagina, h1]
    · have h1f : (getCampo? (env.produtosPesquisa pagina) "erro").isSome = false := by
        simpa using h1
      by_cases h2 : verificarFimPaginacao (env.produtosPesquisa pagina) = true
      · have e1 := lerProgresso_salvar_outro
          (salvarProgresso prog CHAVE_TIMESTAMP_PRODUTOS agora)
          CHAVE_PAGINA_PRODUTOS "" CHAVE_TIMESTAMP_PRODUTOS (by decide)
        have e2 := lerProgresso_salvar_mesmo prog CHAVE_TIMESTAMP_PRODUTOS agora
        have e3 := lerProgresso_salvar_mesmo
          (salvarProgresso prog CHAVE_TIMESTAMP_PRODUTOS agora) CHAVE_PAGINA_PRODUTOS ""
        simp [cargaProdutosInner, comPagina, h1f, h2, e1, e2, e3]
      · have h2f : verificarFimPaginacao (env.produtosPesquisa pagina) = false := by
          simpa using h2
        cases h3 : getCampo? (env.produtosPesquisa pagina) "retorno" with
        | none => simp [cargaProdutosInner, comPagina, h1f, h2f, h3]
        | some retorno =>
          by_cases h4 : jFalsy (listaDe retorno "produtos") = true
          · have ih := cargaProdutosInner_conclusao env agora cont hcont p
              (salvarProgresso prog CHAVE_PAGINA_PRODUTOS (natParaStr (pagina + 1)))
              db (pagina + 1) proc
            simpa [cargaProdutosInner, comPagina, h1f, h2f, h3, h4] using ih
          · have h4f : jFalsy (listaDe retorno "produtos") = false := by simpa using h4
            cases h5 : iteravel (listaDe retorno "produtos") with
            | none => simp [cargaProdutosInner, comPagina, h1f, h2f, h3, h4f, h5]
            | some registros =>
              rcases hx : processarListaProdutos env registros db proc 0
                with ⟨db2, proc2, err2⟩
              have ih := cargaProdutosInner_conclusao env agora cont hcont p
                (salvarProgresso prog CHAVE_PAGINA_PRODUTOS (natParaStr (pagina + 1)))
                db2 (pagina + 1) proc2
              by_cases h6 : env.commitPaginaProdutos pagina = true
              · simpa [cargaProdutosInner, comPagina, h1f, h2f, h3, h4f, h5, hx, h6] using ih
              · have h6f : env.commitPaginaProdutos pagina = false := by simpa using h6
                simpa [cargaProdutosInner, comPagina, h1f, h2f, h3, h4f, h5, hx, h6f] using ih

/-- Outer-loop version of `cargaProdutosInner_conclusao`. -/
theorem cargaProdutosOuter_conclusao (env : Ambiente) (agora : String) :
    ∀ (lotesRest : Nat) (prog : Progresso) (db : DB) (pagina proc : Nat),
      (cargaProdutosOuter env agora lotesRest prog db pagina proc).sucesso = true →
      (cargaProdutosOuter env agora lotesRest prog db pagina proc).restantes = false →
      lerProgresso (cargaProdutosOuter env agora lotesRest prog db pagina proc).progresso
        CHAVE_TIMESTAMP_PRODUTOS = some agora ∧
      lerProgresso (cargaProdutosOuter env agora lotesRest prog db pagina proc).progresso
        CHAVE_PAGINA_PRODUTOS = some ""
  | 0, prog, db, pagina, proc => by
    intro _ hr
    simp [cargaProdutosOuter] at hr
  | (l + 1), prog, db, pagina, proc =>
    cargaProdutosInner_conclusao env agora (cargaProdutosOuter env agora l)
      (fun prog db pagina proc => cargaProdutosOuter_conclusao env agora l prog db pagina proc)
      PAGINAS_POR_LOTE_PRODUTOS prog db pagina proc

/-- Invariant of the orders page loop: starting with no stored timestamp,
if the run ends with the timestamp recorded as "now" then it also cleared
the page cursor (only the end-of-pagination branch writes the timestamp). -/
theorem cargaPedidosInner_conclusao (env : Ambiente) (agora : String)
    (cont : Progresso → DB → Nat → ResultadoPedidos)
    (hcont : ∀ (prog : Progresso) (db : DB) (pagina : Nat),
      lerProgresso prog CHAVE_TIMESTAMP_PEDIDOS = none →
      lerProgresso (cont prog db pagina).progresso CHAVE_TIMESTAMP_PEDIDOS = some agora →
      lerProgresso (cont prog db pagina).progresso CHAVE_PAGINA_PEDIDOS = some "") :
    ∀ (paginasRest : Nat) (prog : Progresso) (db : DB) (pagina : Nat),
      lerProgresso prog CHAVE_TIMESTAMP_PEDIDOS = none →
      lerProgresso (cargaPedidosInner env agora cont paginasRest prog db pagina).progresso
        CHAVE_TIMESTAMP_PEDIDOS = some agora →
      lerProgresso (cargaPedidosInner env agora cont paginasRest prog db pagina).progresso
        CHAVE_PAGINA_PEDIDOS = some ""
  | 0, prog, db, pagina => hcont prog db pagina
  | (p + 1), prog, db, pagina => by
    intro hts
    have epreserva : ∀ v : String,
        lerProgresso (salvarProgresso prog CHAVE_PAGINA_PEDIDOS v)
          CHAVE_TIMESTAMP_PEDIDOS = none :=
      fun v => (lerProgresso_salvar_outro prog CHAVE_PAGINA_PEDIDOS v
        CHAVE_TIMESTAMP_PEDIDOS (by decide)).trans hts
    by_cases h1 : (getCampo? (env.pedidosPesquisa pagina) "erro").isSome = true
    · simp [cargaPedidosInner, comPaginaPed, h1, epreserva 
        (natParaStr pagina)]
    · have h1f : (getCampo? (env.pedidosPesquisa pagina) "erro").isSome = false := by
        simpa using h1
      by_cases h2 : verificarFimPaginacao (env.pedidosPesquisa pagina) = true
      · have e3 := lerProgresso_salvar_mesmo
          (salvarProgresso prog CHAVE_TIMESTAMP_PEDIDOS agora) CHAVE_PAGINA_PEDIDOS ""
        simp [cargaPedidosInner, comPaginaPed, h1f, h2, e3]
      · have h2f : verificarFimPaginacao (env.pedidosPesquisa pagina) = false := by
          simpa using h2
        cases h3 : getCampo? (env.pedidosPesquisa pagina) "retorno" with
        | none => simp [cargaPedidosInner, comPaginaPed, h1f, h2f, h3, epreserva
            (natParaStr pagina)]
        | some retorno =>
          by_cases h4 : jFalsy (listaDe retorno "pedidos") = true
          · have ih := cargaPedidosInner_conclusao env agora cont hcont p
              (salvarProgresso prog CHAVE_PAGINA_PEDIDOS (natParaStr (pagina + 1)))
              db (pagina + 1) (epreserva (natParaStr (pagina + 1)))
            simpa [cargaPedidosInner, comPaginaPed, h1f, h2f, h3, h4] using ih
          · have h4f : jFalsy (listaDe retorno "pedidos") = false := by simpa using h4
            cases h5 : iteravel (listaDe retorno "pedidos") with
            | none => simp [cargaPedidosInner, comPaginaPed, h1f, h2f, h3, h4f, h5,
                epreserva (natParaStr pagina)]
            | some registros =>
              rcases hx : processarListaPedidos env registros db 0 0
                with ⟨db2, proc2, err2⟩
              have ih := cargaPedidosInner_conclusao env agora cont hcont p
                (salvarProgresso prog CHAVE_PAGINA_PEDIDOS (natParaStr (pagina + 1)))
                db2 (pagina + 1) (epreserva (natParaStr (pagina + 1)))
              by_cases h6 : env.commitPaginaPedidos pagina = true
              · simpa [cargaPedidosInner, comPaginaPed, h1f, h2f, h3, h4f, h5, hx, h6] using ih
              · have h6f : env.commitPaginaPedidos pagina = false := by simpa using h6
                simpa [cargaPedidosInner, comPaginaPed, h1f, h2f, h3, h4f, h5, hx, h6f] using ih

/-- Outer-loop version of `cargaPedidosInner_conclusao`. -/
theorem cargaPedidosOuter_conclusao (env : Ambiente) (agora : String) :
    ∀ (lotesRest : Nat) (prog : Progresso) (db : DB) (pagina : Nat),
      lerProgresso prog CHAVE_TIMESTAMP_PEDIDOS = none →
      lerProgresso (cargaPedidosOuter env agora lotesRest prog db pagina).progresso
        CHAVE_TIMESTAMP_PEDIDOS = some agora →
      lerProgresso (cargaPedidosOuter env agora lotesRest prog db pagina).progresso
        CHAVE_PAGINA_PEDIDOS = some ""
  | 0, prog, db, pagina => by
    intro hts habs
    rw [show (cargaPedidosOuter env agora 0 prog db pagina).progresso = prog from rfl]
      at habs
    rw [hts] at habs
    exact absurd habs (by simp)
  | (l + 1), prog, db, pagina =>
    cargaPedidosInner_conclusao env agora (cargaPedidosOuter env agora l)
      (fun prog db pagina => cargaPedidosOuter_conclusao env agora l prog db pagina)
      PAGINAS_POR_LOTE_PEDIDOS prog db pagina

/-- C2: (1) whenever a nonempty products timestamp is stored, the dispatch
chooses incremental mode regardless of any page cursor; (2) a products
backfill that ends successfully with no work remaining — which only the
end-of-pagination branch produces — has recorded timestamp "now" and cleared
the page cursor (to the empty string), so the next dispatch (for a nonempty
"now") is incremental; (3) and (4): the same two facts for orders. -/
theorem C2_transicao_modo :
    (∀ (prog : Progresso) (ts : String),
      lerProgresso prog CHAVE_TIMESTAMP_PRODUTOS = some ts → ts ≠ "" →
      modoProdutos prog = .incremental ∧
      ∀ (env : Ambiente) (agora : String) (db : DB),
        buscarEGravarProdutos env agora prog db
          = buscarEGravarProdutosIncremental env agora prog db ts) ∧
    (∀ (env : Ambiente) (agora : String) (prog : Progresso) (db : DB),
      (buscarEGravarProdutosCargaCompleta env agora prog db).sucesso = true →
      (buscarEGravarProdutosCargaCompleta env agora prog db).restantes = false →
      lerProgresso (buscarEGravarProdutosCargaCompleta env agora prog db).progresso
        CHAVE_TIMESTAMP_PRODUTOS = some agora ∧
      lerProgresso (buscarEGravarProdutosCargaCompleta env agora prog db).progresso
        CHAVE_PAGINA_PRODUTOS = some "" ∧
      (agora ≠ "" →
        modoProdutos (buscarEGravarProdutosCargaCompleta env agora prog db).progresso
          = .incremental)) ∧
    (∀ (prog : Progresso) (ts : String),
      lerProgresso prog CHAVE_TIMESTAMP_PEDIDOS = some ts → ts ≠ "" →
      modoPedidos prog = .incremental ∧
      ∀ (env : Ambiente) (agora : String) (db : DB),
        buscarEGravarPedidosEItens env agora prog db
          = buscarEGravarPedidosIncremental env agora prog db ts) ∧
    (∀ (env : Ambiente) (agora : String) (prog : Progresso) (db : DB),
      lerProgresso prog CHAVE_TIMESTAMP_PEDIDOS = none → agora ≠ "" →
      lerProgresso (buscarEGravarPedidosCargaCompleta env agora prog db).progresso
        CHAVE_TIMESTAMP_PEDIDOS = some agora →
      lerProgresso (buscarEGravarPedidosCargaCompleta env agora prog db).progresso
        CHAVE_PAGINA_PEDIDOS = some "" ∧
      modoPedidos (buscarEGravarPedidosCargaCompleta env agora prog db).progresso
        = .incremental) := by
  refine ⟨?_, ?_, ?_, ?_⟩
  · intro prog ts hts hne
    constructor
    · unfold modoProdutos
      rw [hts]
      simp [hne]
    · intro env agora db
      unfold buscarEGravarProdutos
      rw [hts]
      simp [hne]
  · intro env agora prog db hs hr
    have h : lerProgresso (buscarEGravarProdutosCargaCompleta env agora prog db).progresso
          CHAVE_TIMESTAMP_PRODUTOS = some agora ∧
        lerProgresso (buscarEGravarProdutosCargaCompleta env agora prog db).progresso
          CHAVE_PAGINA_PRODUTOS = some "" :=
      cargaProdutosOuter_conclusao env agora MAX_LOTES_PRODUTOS_POR_EXECUCAO
        prog db (paginaInicialProdutos prog) 0 hs hr
    refine ⟨h.1, h.2, ?_⟩
    intro hagora
    unfold modoProdutos
    rw [h.1]
    simp [hagora]
  · intro prog ts hts hne
    constructor
    · unfold modoPedidos
      rw [hts]
      simp [hne]
    · intro env agora db
      unfold buscarEGravarPedidosEItens
      rw [hts]
      simp [hne]
  · intro env agora prog db hts hagora hagravou
    have h : lerProgresso (buscarEGravarPedidosCargaCompleta env agora prog db).progresso
          CHAVE_PAGINA_PEDIDOS = some "" :=
      cargaPedidosOuter_conclusao env agora MAX_LOTES_PEDIDOS_POR_EXECUCAO
        prog db (paginaInicialPedidos prog) hts hagravou
    refine ⟨h, ?_⟩
    unfold modoPedidos
    rw [hagravou]
    simp [hagora]

/-- Witness for `C2_transicao_modo`: a stored nonempty timestamp forces
incremental mode for products and for orders; after the concluding backfills
of `envFimPagina1` / `envFimPedidos` the recorded timestamp makes the next
dispatch incremental. -/
theorem C2_witness :
    modoProdutos [(CHAVE_TIMESTAMP_PRODUTOS, "2025-01-01 00:00:00")] = .incremental ∧
    lerProgresso (buscarEGravarProdutosCargaCompleta envFimPagina1 "2025-05-20 10:00:00"
      [] dbVazio).progresso CHAVE_TIMESTAMP_PRODUTOS = some "2025-05-20 10:00:00" ∧
    modoProdutos (buscarEGravarProdutosCargaCompleta envFimPagina1 "2025-05-20 10:00:00"
      [] dbVazio).progresso = .incremental ∧
    modoPedidos [(CHAVE_TIMESTAMP_PEDIDOS, "2025-01-01 00:00:00")] = .incremental ∧
    modoPedidos (buscarEGravarPedidosCargaCompleta envFimPedidos "2025-05-20 10:00:00"
      [] dbVazio).progresso = .incremental := by
  refine ⟨(C2_transicao_modo.1 [(CHAVE_TIMESTAMP_PRODUTOS, "2025-01-01 00:00:00")]
      "2025-01-01 00:00:00" (by decide) (by decide)).1,
    (C2_transicao_modo.2.1 envFimPagina1 "2025-05-20 10:00:00" [] dbVazio
      (by decide) (by decide)).1,
    (C2_transicao_modo.2.1 envFimPagina1 "2025-05-20 10:00:00" [] dbVazio
      (by decide) (by decide)).2.2 (by decide),
    (C2_transicao_modo.2.2.1 [(CHAVE_TIMESTAMP_PEDIDOS, "2025-01-01 00:00:00")]
      "2025-01-01 00:00:00" (by decide) (by decide)).1,
    (C2_transicao_modo.2.2.2 envFimPedidos "2025-05-20 10:00:00" [] dbVazio
      rfl (by decide) (by decide)).2⟩

/-! ### C7 — failure classification -/

/-- Counterexample to C7 as stated: a run whose categories stage receives an
invalid-credential response does NOT abort — the failure is logged and the
run proceeds through products, sellers and orders.  No fatal/credential
classification exists in the code. -/
theorem C7_contraexemplo_credencial :
    (sincronizarCategorias dbVazio envCredencial.categoriasResp).1 = false ∧
    (executarPrincipal envCredencial "2025-05-20 10:00:00" [] dbVazio).etapas
      = [.categorias, .produtos, .vendedores, .pedidos] := by
  refine ⟨by decide, by decide⟩

/-- C7 (amended: the code has no fatal/credential classification — error
responses are distinguished only by the extracted numeric code (14/34 benign
empty result, 22/23 end of pagination); a credential error during the
categories stage is logged and the run continues with products, while ANY
products-stage failure ends the run before sellers and orders; a failure to
process one individual record is logged, counted, and skipped):
(1) a failing record leaves the database unchanged, bumps the error counter
and processing continues with the remaining records; (2) every run attempts
categories and then products regardless of the categories outcome; (3) a
failing products stage makes the run stop after products; (4) the incremental
error branch depends only on whether the extracted numeric code is in
\{14, 34\} — a credential error (any other code, or none) lands in the same
generic failure branch as every other error. -/
theorem C7_classificacao_falhas :
    (∀ (env : Ambiente) (item : JVal) (resto : List JVal) (db : DB)
        (proc err : Nat) (idProduto : JVal),
      getCampo? item "id" = some idProduto → jFalsy idProduto = false →
      buscarEGravarDetalhesProduto env db idProduto = (false, db) →
      processarListaProdutos env (item :: resto) db proc err
        = processarListaProdutos env resto db proc (err + 1)) ∧
    (∀ (env : Ambiente) (agora : String) (prog : Progresso) (db : DB),
      (executarPrincipal env agora prog db).etapas.take 2
        = [.categorias, .produtos]) ∧
    (∀ (env : Ambiente) (agora : String) (prog : Progresso) (db : DB),
      (buscarEGravarProdutos env agora prog
        (sincronizarCategorias db env.categoriasResp).2).sucesso = false →
      (buscarEGravarProdutos env agora prog
        (sincronizarCategorias db env.categoriasResp).2).restantes = true →
      (executarPrincipal env agora prog db).etapas = [.categorias, .produtos]) ∧
    (∀ (env : Ambiente) (agora ts : String) (prog : Progresso) (db : DB)
        (retorno : JVal),
      (getCampo? (env.produtosAlteracoes ts) "erro").isSome = false →
      getCampo? (env.produtosAlteracoes ts) "retorno" = some retorno →
      statusErro retorno = true →
      (codigoEm (extrairCodigoErroApi (env.produtosAlteracoes ts)) [14, 34] = true →
        buscarEGravarProdutosIncremental env agora prog db ts =
          ⟨true, false, salvarProgresso prog CHAVE_TIMESTAMP_PRODUTOS agora, db, 0, []⟩) ∧
      (codigoEm (extrairCodigoErroApi (env.produtosAlteracoes ts)) [14, 34] = false →
        buscarEGravarProdutosIncremental env agora prog db ts =
          ⟨false, true, prog, db, 0, []⟩)) := by
  refine ⟨?_, ?_, ?_, ?_⟩
  · intro env item resto db proc err idProduto h1 h2 h3
    simp [processarListaProdutos, h1, h2, h3]
  · intro env agora prog db
    rcases hc : sincronizarCategorias db env.categoriasResp with ⟨okc, db1⟩
    rcases hm : mainLoopProdutos env agora MAX_LOTES_PRODUTOS_POR_EXECUCAO prog db1
      with ⟨pross, prog2, db2⟩
    cases pross <;> simp [executarPrincipal, hc, hm]
  · intro env agora prog db hs hr
    rcases hc : sincronizarCategorias db env.categoriasResp with ⟨okc, db1⟩
    rw [hc] at hs hr
    simp only at hs hr
    have hm : mainLoopProdutos env agora MAX_LOTES_PRODUTOS_POR_EXECUCAO prog db1
        = (false, (buscarEGravarProdutos env agora prog db1).progresso,
            (buscarEGravarProdutos env agora prog db1).db) := by
      show mainLoopProdutos env agora (9 + 1) prog db1 = _
      simp [mainLoopProdutos, hs, hr]
    simp [executarPrincipal, hc, hm]
  · intro env agora ts prog db retorno h1 h2 h3
    constructor
    · intro h4
      simp [buscarEGravarProdutosIncremental, h1, h2, h3, h4]
    · intro h4
      simp [buscarEGravarProdutosIncremental, h1, h2, h3, h4]

/-- Witness for `C7_classificacao_falhas`: a record whose detail fetch fails
is skipped with the error counter bumped; the credential-failing run of
`envCredencial` still reaches products; a products-stage failure ends the run
after the products stage; the incremental fetch treats the credential-error
response (code 3) as the generic failure, not as a fatal class of its own. -/
theorem C7_witness :
    processarListaProdutos envItensVazios [.dict [("id", .num 1)]] dbVazio 0 0
      = processarListaProdutos envItensVazios [] dbVazio 0 1 ∧
    (executarPrincipal envCredencial "2025-05-20 10:00:00" [] dbVazio).etapas.take 2
      = [.categorias, .produtos] ∧
    (executarPrincipal envFalhaProdutos "2025-05-20 10:00:00" [] dbVazio).etapas
      = [.categorias, .produtos] ∧
    buscarEGravarProdutosIncremental envAlteracoesCredencial "2025-05-20 10:00:00"
      [] dbVazio "2025-01-01 00:00:00" = ⟨false, true, [], dbVazio, 0, []⟩ := by
  refine ⟨C7_classificacao_falhas.1 envItensVazios _ _ dbVazio 0 0 (.num 1) rfl
      (by decide) rfl,
    C7_classificacao_falhas.2.1 envCredencial "2025-05-20 10:00:00" [] dbVazio,
    C7_classificacao_falhas.2.2.1 envFalhaProdutos "2025-05-20 10:00:00" [] dbVazio
      (by decide) (by decide),
    (C7_classificacao_falhas.2.2.2 envAlteracoesCredencial "2025-05-20 10:00:00"
      "2025-01-01 00:00:00" [] dbVazio
      (.dict [("status", .str "Erro"), ("codigo_erro", .str "3"),
        ("erros", .lst [.dict [("erro", .str "A sessao do token expirou ou token invalido")]])])
      (by decide) rfl (by decide)).2 (by decide)⟩
